import Mathlib

/-!
Verification of the FlowPilot authorization platform against its
natural-language specification.

The Python sources under `flowpilot-services/` are shallowly embedded:
JSON/Python values become the inductive `JVal`, dictionaries become
association lists (first occurrence wins, as Python dicts have unique
keys), fallible code returns `Except`, and the network collaborators
(persona API, delegation API, OPA, domain service) become explicit
function parameters.  UTC instants (ISO-8601 strings in the sources,
always compared chronologically or lexicographically on the normalized
form, which agree) are abstracted as natural numbers.
-/

namespace FlowPilot

/-- JSON-ish value universe covering the Python values the services pass
around: `None`, booleans, ints, floats (modelled as rationals), strings,
lists and dicts. -/
inductive JVal where
  | null : JVal
  | bool (b : Bool) : JVal
  | int (n : Int) : JVal
  | num (q : Rat) : JVal
  | str (s : String) : JVal
  | arr (xs : List JVal) : JVal
  | obj (kvs : List (String × JVal)) : JVal
deriving Repr

mutual

def JVal.beq : JVal → JVal → Bool
  | .null, .null => true
  | .bool a, .bool b => a == b
  | .int a, .int b => a == b
  | .num a, .num b => a == b
  | .str a, .str b => a == b
  | .arr a, .arr b => JVal.beqList a b
  | .obj a, .obj b => JVal.beqKvs a b
  | _, _ => false

def JVal.beqList : List JVal → List JVal → Bool
  | [], [] => true
  | a :: as, b :: bs => JVal.beq a b && JVal.beqList as bs
  | _, _ => false

def JVal.beqKvs : List (String × JVal) → List (String × JVal) → Bool
  | [], [] => true
  | (ka, va) :: as, (kb, vb) :: bs => ka == kb && JVal.beq va vb && JVal.beqKvs as bs
  | _, _ => false

end

instance : BEq JVal := ⟨JVal.beq⟩

mutual

theorem JVal.beq_iff : ∀ a b : JVal, JVal.beq a b = true ↔ a = b
  | .null, b => by cases b <;> simp [JVal.beq]
  | .bool x, b => by cases b <;> simp [JVal.beq]
  | .int x, b => by cases b <;> simp [JVal.beq]
  | .num x, b => by cases b <;> simp [JVal.beq]
  | .str x, b => by cases b <;> simp [JVal.beq]
  | .arr xs, b => by
      cases b <;> simp [JVal.beq]
      exact JVal.beqList_iff xs _
  | .obj xs, b => by
      cases b <;> simp [JVal.beq]
      exact JVal.beqKvs_iff xs _

theorem JVal.beqList_iff : ∀ a b : List JVal, JVal.beqList a b = true ↔ a = b
  | [], b => by cases b <;> simp [JVal.beqList]
  | x :: xs, b => by
      cases b with
      | nil => simp [JVal.beqList]
      | cons y ys =>
          simp [JVal.beqList, JVal.beq_iff x y, JVal.beqList_iff xs ys]

theorem JVal.beqKvs_iff : ∀ a b : List (String × JVal), JVal.beqKvs a b = true ↔ a = b
  | [], b => by cases b <;> simp [JVal.beqKvs]
  | (k, v) :: xs, b => by
      cases b with
      | nil => simp [JVal.beqKvs]
      | cons y ys =>
          obtain ⟨k2, v2⟩ := y
          simp [JVal.beqKvs, JVal.beq_iff v v2, JVal.beqKvs_iff xs ys, and_assoc]

end

instance : DecidableEq JVal := fun a b =>
  decidable_of_iff (JVal.beq a b = true) (JVal.beq_iff a b)

/-- Python dict lookup `d.get(k)`: first binding wins (Python dicts have
unique keys; the embedding keeps the first occurrence authoritative). -/
def jget (kvs : List (String × JVal)) (k : String) : Option JVal :=
  (kvs.find? (fun p => p.1 = k)).map Prod.snd

/-- Python dict store `d[k] = v`: replace an existing binding in place,
else append (insertion order, as Python dicts preserve it). -/
def jset (kvs : List (String × JVal)) (k : String) (v : JVal) : List (String × JVal) :=
  if (kvs.find? (fun p => p.1 = k)).isSome then
    kvs.map (fun p => if p.1 = k then (k, v) else p)
  else
    kvs ++ [(k, v)]

/-- Python `k in d`. -/
def jmem (kvs : List (String × JVal)) (k : String) : Bool :=
  (kvs.find? (fun p => p.1 = k)).isSome

/-- Python truthiness of a value (`bool(v)`). -/
def pyTruthy : JVal → Bool
  | .null => false
  | .bool b => b
  | .int n => n ≠ 0
  | .num q => q ≠ 0
  | .str s => s ≠ ""
  | .arr xs => !xs.isEmpty
  | .obj kvs => !kvs.isEmpty

/-- Python `str.strip()` (and the `.strip()` calls of the services):
drop leading and trailing whitespace.  Implemented over the character
list so that proofs can evaluate it. -/
def py_strip (s : String) : String :=
  String.mk (((s.data.dropWhile Char.isWhitespace).reverse.dropWhile Char.isWhitespace).reverse)

/-- Python `str.lower()` over the ASCII range used by the services. -/
def py_lower (s : String) : String :=
  String.mk (s.data.map Char.toLower)

/-- Python `s[:n]` (string truncation). -/
def py_take (s : String) (n : Nat) : String :=
  String.mk (s.data.take n)

/-- Single-character `str.split(c)` (list-of-characters splitter). -/
def split_chars (c : Char) : List Char → List (List Char)
  | [] => [[]]
  | ch :: rest =>
      let r := split_chars c rest
      if ch = c then [] :: r
      else
        match r with
        | h :: t => (ch :: h) :: t
        | [] => [[ch]]

/-- Python `s.split(c)` for a one-character separator. -/
def py_split (c : Char) (s : String) : List String :=
  (split_chars c s.data).map String.mk

/-- Decimal value of a digit run. -/
def digits_to_nat (digits : List Char) : Nat :=
  digits.foldl (fun n c => n * 10 + (c.toNat - 48)) 0

/-- Python `int(s)` on a string: optional surrounding whitespace, optional
sign, a non-empty digit run.  (The embedding covers the decimal fragment
of CPython grammar; none of the inputs in this development use digit
group separators.) -/
def parseInt? (s : String) : Option Int :=
  let core := fun (digits : List Char) (sign : Int) =>
    if digits.length > 0 && digits.all Char.isDigit then
      some (sign * (digits_to_nat digits : Int))
    else none
  match (py_strip s).data with
  | '-' :: rest => core rest (-1)
  | '+' :: rest => core rest 1
  | t => core t 1

/-- Python `float(s)` on a string: optional sign, `digits[.digits]` or
`.digits`, optional decimal exponent.  Special values (`inf`, `nan`) are
outside the rational model and parse as failure. -/
def parseFloat? (s : String) : Option Rat :=
  let (sign, body) :=
    match (py_strip s).data with
    | '-' :: rest => ((-1 : Rat), rest)
    | '+' :: rest => ((1 : Rat), rest)
    | t => ((1 : Rat), t)
  let (mant, expPart) :=
    match split_chars 'e' (body.map Char.toLower) with
    | [m] => (m, none)
    | [m, e] => (m, some e)
    | _ => ([], some [])
  let mantVal : Option Rat :=
    match split_chars '.' mant with
    | [intPart] =>
        if intPart.length > 0 && intPart.all Char.isDigit then
          some ((digits_to_nat intPart : Rat))
        else none
    | [intPart, fracPart] =>
        if (intPart.length > 0 || fracPart.length > 0)
            && intPart.all Char.isDigit && fracPart.all Char.isDigit then
          some ((digits_to_nat intPart : Rat)
            + (digits_to_nat fracPart : Rat) / ((10 : Rat) ^ fracPart.length))
        else none
    | _ => none
  let expVal : Option Int :=
    match expPart with
    | none => some 0
    | some e => parseInt? (String.mk e)
  match mantVal, expVal with
  | some m, some e => some (sign * m * (10 : Rat) ^ e)
  | _, _ => none

/-- Python `int(q)` for a float: truncation toward zero. -/
def pyTruncRat (q : Rat) : Int :=
  q.num.tdiv (q.den : Int)

/-- Python `str(v)`.  For dict/list/float arguments (which no claim in this
development inspects through `str`) a simple canonical rendering is used. -/
def pyStr : JVal → String
  | .null => "None"
  | .bool b => if b then "True" else "False"
  | .int n => toString n
  | .num q => if q.den = 1 then toString q.num ++ ".0" else toString q.num ++ "/" ++ toString q.den
  | .str s => s
  | .arr _ => "[...]"
  | .obj _ => "\x7b...\x7d"

end FlowPilot

namespace FlowPilot

/-! ## Policy manifests (`authz-api/policy_manifest.py`)

The manifest registry is loaded from YAML at process start; claims are
stated over an already-loaded registry, modelled as an association list
from policy name to manifest.  The global allowed-actions set that
`PolicyRegistry.get_all_allowed_actions` aggregates from the manifests
is threaded through as an explicit list. -/

/-- A typed attribute requirement (`PolicyAttribute` dataclass).
`default = none` models the Python default value `None`. -/
structure PolicyAttribute where
  name : String
  type : String
  source : String
  default : Option JVal := none
  required : Bool := false
deriving DecidableEq, Repr

/-- A loaded policy manifest (`PolicyManifest` dataclass); the
`persona_config` section only feeds the global allowed-actions set,
which is passed separately. -/
structure PolicyManifest where
  name : String
  package : String
  attributes : List PolicyAttribute
deriving DecidableEq, Repr

def PolicyManifest.persona_attributes (m : PolicyManifest) : List PolicyAttribute :=
  m.attributes.filter (fun a => a.source = "persona")

def PolicyManifest.resource_attributes (m : PolicyManifest) : List PolicyAttribute :=
  m.attributes.filter (fun a => a.source = "resource")

/-- `PolicyRegistry.select_policy`: explicit hint required, must name a
loaded policy; raises `ValueError` otherwise.  (Quote characters of the
Python messages are omitted in the model.) -/
def select_policy (policies : List (String × PolicyManifest)) (policy_hint : Option JVal) :
    Except String PolicyManifest :=
  let available := String.intercalate ", " (policies.map Prod.fst)
  match policy_hint with
  | none =>
      .error s!"Policy selection requires context.policy_hint. Available policies: {available}"
  | some h =>
      if pyTruthy h then
        match h with
        | .str s =>
            match policies.find? (fun p => p.1 = s) with
            | some p => .ok p.2
            | none => .error s!"Policy {s} not found. Available policies: {available}"
        | v => .error s!"Policy {pyStr v} not found. Available policies: {available}"
      else
        .error s!"Policy selection requires context.policy_hint. Available policies: {available}"

/-! ## Shared value coercion (`shared-libraries/utils.py`) -/

/-- `utils.coerce_int`: `int(value)` with a fallback default on `None` or
conversion failure.  Note Python `int(True) = 1` and truncation toward
zero for floats. -/
def coerce_int (value : JVal) (default : Int) : Int :=
  match value with
  | .null => default
  | .bool b => if b then 1 else 0
  | .int n => n
  | .num q => pyTruncRat q
  | .str s => (parseInt? s).getD default
  | .arr _ => default
  | .obj _ => default

/-- `utils.coerce_bool`. -/
def coerce_bool (value : JVal) (default : Bool) : Bool :=
  match value with
  | .null => default
  | .bool b => b
  | .int n => n ≠ 0
  | .num q => q ≠ 0
  | .str s =>
      let normalized := py_lower (py_strip s)
      if normalized = "" then default
      else normalized ∈ ["yes", "y", "true", "t", "1", "on"]
  | .arr xs => !xs.isEmpty
  | .obj kvs => !kvs.isEmpty

/-- `utils.coerce_float`: `float(value)` with fallback default (the
callers in `normalize_attributes` pass no default, i.e. `None`). -/
def coerce_float (value : JVal) (default : Option Rat) : Option Rat :=
  match value with
  | .null => default
  | .bool b => some (if b then 1 else 0)
  | .int n => some (n : Rat)
  | .num q => some q
  | .str s => match parseFloat? s with
      | some q => some q
      | none => default
  | .arr _ => default
  | .obj _ => default

/-- Zero padding used for the `%04d-%02d-%02d` date rendering. -/
def zpad (n : Int) (w : Nat) : String :=
  let s := toString n
  if s.length < w then String.mk (List.replicate (w - s.length) '0') ++ s else s

/-- `utils.normalize_departure_date`: RFC3339 pass-through on strings
containing `T`; date-only strings become midnight UTC; anything else
yields `None`. -/
def normalize_departure_date (date_value : JVal) : Option String :=
  match date_value with
  | .null => none
  | v =>
      let date_str := py_strip (pyStr v)
      if date_str = "" then none
      else if date_str.data.contains 'T' then some date_str
      else
        match py_split '-' date_str with
        | [y, m, d] =>
            match parseInt? y, parseInt? m, parseInt? d with
            | some yn, some mn, some dn =>
                some (zpad yn 4 ++ "-" ++ zpad mn 2 ++ "-" ++ zpad dn 2 ++ "T00:00:00Z")
            | _, _, _ => none
        | _ => none

/-! ## Attribute normalization (`authz-api/authz_core.py`) -/

/-- `authz_core.normalize_attributes`: apply manifest defaults, reject
missing required attributes with `ValueError`, then coerce every
declared attribute to its manifest type.  Coercion never raises. -/
def normalize_attributes (attributes_dict : List (String × JVal))
    (policy_attributes : List PolicyAttribute) (source_type : String) :
    Except String (List (String × JVal)) :=
  -- Step 1: apply defaults for missing attributes
  let result := policy_attributes.foldl (fun result attr =>
    if !(jmem result attr.name) || jget result attr.name = some .null then
      match attr.default with
      | some d => jset result attr.name d
      | none => result
    else result) attributes_dict
  -- Step 2: validate required attributes are present
  let missing_required := (policy_attributes.filter (fun attr =>
    attr.required && (!(jmem result attr.name) || jget result attr.name = some .null))).map
    (fun a => a.name)
  if missing_required ≠ [] then
    let missingStr := String.intercalate ", " missing_required
    .error s!"Missing required {source_type} attributes: {missingStr}"
  else
    -- Step 3: coerce attribute values to manifest types
    .ok (policy_attributes.foldl (fun result attr =>
      if jmem result attr.name then
        let attr_value := (jget result attr.name).getD .null
        let coerced :=
          if attr.type = "float" then
            match coerce_float attr_value none with
            | some q => JVal.num q
            | none => JVal.null
          else if attr.type = "integer" then JVal.int (coerce_int attr_value 0)
          else if attr.type = "date" then
            match normalize_departure_date attr_value with
            | some s => JVal.str s
            | none => JVal.null
          else if attr.type = "boolean" then JVal.bool (coerce_bool attr_value false)
          else if attr_value ≠ .null then JVal.str (pyStr attr_value)
          else JVal.str ""
        jset result attr.name coerced
      else result) result)

/-- Python exception classes distinguished by the pipeline handlers:
`ValueError`, `RuntimeError`, and exceptions no pipeline handler catches
(`TypeError`, `AttributeError`, ...). -/
inductive PyErr where
  | valueError (msg : String)
  | runtimeError (msg : String)
  | fatal (msg : String)
deriving DecidableEq, Repr

/-- Truthiness of an optional lookup result (`d.get(k)` used in a
boolean position: absent means `None`, hence falsy). -/
def optTruthy : Option JVal → Bool
  | some v => pyTruthy v
  | none => false

/-- Python `a or b` over two optional lookups. -/
def pyOr (a b : Option JVal) : Option JVal :=
  match a with
  | some v => if pyTruthy v then some v else b
  | none => b

/-- `utils.coerce_dict`: `None` becomes `{}`, dicts pass through,
anything else raises `ValueError`. -/
def coerce_dict (value : Option JVal) (field_name : String) : Except PyErr (List (String × JVal)) :=
  match value with
  | none => .ok []
  | some .null => .ok []
  | some (.obj kvs) => .ok kvs
  | some _ => .error (.valueError s!"Invalid type for {field_name}: expected dict or null")

end FlowPilot

namespace FlowPilot

/-! ## OPA input builders (`authz-api/authz_core.py`)

The persona and delegation collaborators are HTTP services; they are
modelled as oracle parameters returning `Except String` where an error
models the Python `RuntimeError` the corresponding fetch helper raises
(`fetch_persona`, `fetch_persona_by_user_and_title`,
`compute_delegation_chain`).  An `ok []` result models the empty dict
those helpers return when nothing is found. -/

/-- Oracle type for `fetch_persona_by_user_and_title` and
`fetch_persona`: success carries the persona dict (possibly empty). -/
abbrev PersonaOracle := String → Except String (List (String × JVal))

abbrev PersonaByTitleOracle := String → String → Except String (List (String × JVal))

/-- Oracle type for `compute_delegation_chain owner principal workflow
requested_action`; success carries the `{delegation_chain,
delegated_actions}` dict. -/
abbrev DelegationOracle := String → String → Option String → String → Except String (List (String × JVal))

/-- `authz_core.build_opa_subject`. -/
def build_opa_subject (authzen_request : List (String × JVal)) :
    Except PyErr (List (String × JVal)) := do
  let request_subject ← match jget authzen_request "subject" with
    | some (.obj kvs) =>
        if kvs.isEmpty then
          Except.error (.valueError "Request must be AuthZEN compliant: subject is required")
        else pure kvs
    | _ => Except.error (.valueError "Request must be AuthZEN compliant: subject is required")
  let subject_id ← match jget request_subject "id" with
    | some (.str s) =>
        if py_strip s = "" then
          Except.error (.valueError "Request must be AuthZEN compliant: subject.id is required")
        else pure (py_strip s)
    | _ => Except.error (.valueError "Request must be AuthZEN compliant: subject.id is required")
  let subject_type := (jget request_subject "type").getD (.str "user")
  let subject_properties ← match jget request_subject "properties" with
    | none => pure ([] : List (String × JVal))
    | some (.obj ps) => pure ps
    | some _ =>
        Except.error (.valueError "Request must be AuthZEN compliant: subject.properties must be a dictionary")
  let subject_persona0 := jget subject_properties "persona"
  let subject_persona ←
    if subject_type = .str "user" then
      match subject_persona0 with
      | some v =>
          if !pyTruthy v then
            Except.error (.valueError "Request must contain subject.properties.persona for user subjects")
          else do
            let v ← match v with
              | .arr [] =>
                  Except.error (.valueError "Request must contain non-empty subject.properties.persona")
              | .arr (x :: _) => pure x
              | w => pure w
            match v with
            | .str s =>
                if py_strip s = "" then
                  Except.error (.valueError "Request must contain a string for subject.properties.persona")
                else pure (some (JVal.str (py_strip s)))
            | _ =>
                Except.error (.valueError "Request must contain a string for subject.properties.persona")
      | none =>
          Except.error (.valueError "Request must contain subject.properties.persona for user subjects")
    else pure subject_persona0
  let result := [("type", subject_type), ("id", JVal.str subject_id)]
  let result := match subject_persona with
    | some v => if pyTruthy v then result ++ [("persona", v)] else result
    | none => result
  pure result

/-- `authz_core.build_opa_action`.  `sanitize_string` returns its input
unchanged (it only raises on over-long or control-character input, which
the claims do not exercise) and is modelled as the identity. -/
def build_opa_action (allowed_actions : List String)
    (authzen_request : List (String × JVal)) :
    Except PyErr (List (String × JVal)) := do
  let action_from_request ← match (jget authzen_request "action").getD (.obj []) with
    | .obj kvs =>
        if kvs.isEmpty then
          Except.error (.valueError "Request must be AuthZEN compliant: action is required")
        else pure kvs
    | v =>
        if pyTruthy v then
          Except.error (.valueError "Request must be AuthZEN compliant: action is required")
        else
          Except.error (.valueError "Request must be AuthZEN compliant: action is required")
  let normalized_action ← match jget action_from_request "name" with
    | some (.str s) =>
        if py_strip s = "" then
          Except.error (.valueError "Request must be AuthZEN compliant: action.name is required")
        else pure (py_strip s)
    | _ => Except.error (.valueError "Request must be AuthZEN compliant: action.name is required")
  if normalized_action ∈ allowed_actions then
    pure [("name", JVal.str normalized_action)]
  else
    let allowedStr := String.intercalate ", " allowed_actions
    Except.error (.valueError s!"Invalid action name: {normalized_action}. Allowed actions: {allowedStr}")

/-- `authz_core.build_opa_resource`: copy the resource, normalize the
manifest resource attributes, and enrich `properties.owner` with the
owner persona's manifest persona attributes. -/
def build_opa_resource (fetch_persona : PersonaOracle)
    (fetch_persona_by_user_and_title : PersonaByTitleOracle)
    (authzen_request : List (String × JVal))
    (persona_attributes resource_attributes : List PolicyAttribute) :
    Except PyErr (List (String × JVal)) := do
  let resource_from_request ← match jget authzen_request "resource" with
    | some (.obj kvs) => pure kvs
    | some v =>
        if pyTruthy v then Except.error (.fatal "AttributeError: resource is not a dict")
        else pure ([] : List (String × JVal))
    | none => pure ([] : List (String × JVal))
  let properties_from_request ← coerce_dict (jget resource_from_request "properties") "resource.properties"
  let resource := resource_from_request
  let enriched_properties := properties_from_request
  let enriched_properties ←
    if resource_attributes ≠ [] then
      match normalize_attributes enriched_properties resource_attributes "resource" with
      | .ok r => pure r
      | .error e => Except.error (.valueError e)
    else pure enriched_properties
  let owner_props ← coerce_dict (jget enriched_properties "owner") "resource.properties.owner"
  let owner_id := if !owner_props.isEmpty then jget owner_props "id" else none
  let enriched_properties ←
    if optTruthy owner_id then do
      let owner_persona_id := jget owner_props "persona_id"
      let owner_persona_title := jget owner_props "persona"
      let owner_persona ←
        if optTruthy owner_persona_id then
          match fetch_persona (pyStr (owner_persona_id.getD .null)) with
          | .ok p => pure p
          | .error e => Except.error (.runtimeError e)
        else if optTruthy owner_persona_title then
          match fetch_persona_by_user_and_title (pyStr (owner_id.getD .null))
              (pyStr (owner_persona_title.getD .null)) with
          | .ok p => pure p
          | .error e => Except.error (.runtimeError e)
        else pure ([] : List (String × JVal))
      if !owner_persona.isEmpty then
        let newOwner := persona_attributes.foldl (fun o attr =>
          if jmem owner_persona attr.name then
            jset o attr.name ((jget owner_persona attr.name).getD .null)
          else o) owner_props
        pure (jset enriched_properties "owner" (.obj newOwner))
      else pure enriched_properties
    else pure enriched_properties
  pure (jset resource "properties" (.obj enriched_properties))

/-- The `requested_action` read inside the delegation `try` block of
`build_opa_context`; a non-dict `action` raises there, which the
enclosing `except Exception: pass` swallows — modelled as `none`. -/
def action_name_for_delegation (authzen_request : List (String × JVal)) : Option String :=
  match (jget authzen_request "action").getD (.obj []) with
  | .obj kvs => some (pyStr ((jget kvs "name").getD (.str "")))
  | _ => none

/-- Steps 1 and 2 of `authz_core.build_opa_context`: extract and
validate the principal (required), and enrich it with persona metadata
(`not_found` tag when the persona is absent).  Returns the enriched
principal dict together with the raw principal id value. -/
def context_extract_principal (fetch_persona_by_user_and_title : PersonaByTitleOracle)
    (authzen_request : List (String × JVal)) :
    Except PyErr (List (String × JVal) × JVal) := do
  let context0 ← match jget authzen_request "context" with
    | some (.obj kvs) => pure kvs
    | some v =>
        if pyTruthy v then Except.error (.fatal "AttributeError: context is not a dict")
        else pure ([] : List (String × JVal))
    | none => pure ([] : List (String × JVal))
  let principal_from_request ← match jget context0 "principal" with
    | some (.obj kvs) =>
        if kvs.isEmpty then Except.error (.runtimeError "Principal is required in context")
        else pure kvs
    | _ => Except.error (.runtimeError "Principal is required in context")
  let principal_id ← match jget principal_from_request "id" with
    | some v => if pyTruthy v then pure v else Except.error (.runtimeError "Principal must have an id")
    | none => Except.error (.runtimeError "Principal must have an id")
  let principal_persona_title ← match jget principal_from_request "persona" with
    | some v => if pyTruthy v then pure v else Except.error (.runtimeError "Principal must have a persona title")
    | none => Except.error (.runtimeError "Principal must have a persona title")
  let principal_persona ← match fetch_persona_by_user_and_title (pyStr principal_id)
      (pyStr principal_persona_title) with
    | .ok p => pure p
    | .error e => Except.error (.runtimeError e)
  let enriched_principal :=
    if !principal_persona.isEmpty then
      jset (jset (jset principal_from_request
        "persona_status" ((jget principal_persona "status").getD (.str "")))
        "persona_valid_from" ((jget principal_persona "valid_from").getD (.str "")))
        "persona_valid_till" ((jget principal_persona "valid_till").getD (.str ""))
    else
      jset (jset (jset principal_from_request
        "persona_status" (.str "not_found"))
        "persona_valid_from" (.str ""))
        "persona_valid_till" (.str "")
  pure (enriched_principal, principal_id)

/-- Step 3 of `authz_core.build_opa_context`: extract the owner id and
workflow id from the raw request resource (absent for CREATE actions). -/
def context_extract_owner (authzen_request : List (String × JVal)) :
    Except PyErr (Option JVal × Option JVal) := do
  let resource_from_request ← match jget authzen_request "resource" with
    | some (.obj kvs) => pure kvs
    | some v =>
        if pyTruthy v then Except.error (.fatal "AttributeError: resource is not a dict")
        else pure ([] : List (String × JVal))
    | none => pure ([] : List (String × JVal))
  let properties_kvs ← match (jget resource_from_request "properties").getD (.obj []) with
    | .obj kvs => pure kvs
    | _ => Except.error (.fatal "AttributeError: resource.properties is not a dict")
  match jget properties_kvs "owner" with
  | some (.obj okvs) =>
      pure (jget okvs "id", pyOr (jget properties_kvs "workflow_id") (jget resource_from_request "id"))
  | _ => pure (none, none)

/-- Step 4 of `authz_core.build_opa_context`: the delegation block.
Delegation is only computed when an owner exists and differs from the
principal; any failure of the fetch (the `except Exception: pass`) keeps
the empty block. -/
def delegation_block (compute_delegation_chain : DelegationOracle)
    (authzen_request : List (String × JVal)) (principal_id : JVal)
    (owner_id workflow_id : Option JVal) : List (String × JVal) :=
  let empty_delegation : List (String × JVal) :=
    [("delegation_chain", JVal.arr []), ("delegated_actions", JVal.arr [])]
  match owner_id with
  | some oid =>
      if pyTruthy oid && principal_id ≠ oid then
        match action_name_for_delegation authzen_request with
        | none => empty_delegation
        | some requested_action =>
            match compute_delegation_chain (pyStr oid) (pyStr principal_id)
                (match workflow_id with
                 | some w => if pyTruthy w then some (pyStr w) else none
                 | none => none)
                requested_action with
            | .ok delegation_result =>
                [("delegation_chain", (jget delegation_result "delegation_chain").getD (.arr [])),
                 ("delegated_actions", (jget delegation_result "delegated_actions").getD (.arr []))]
            | .error _ => empty_delegation
      else empty_delegation
  | none => empty_delegation

/-- `authz_core.build_opa_context`: validate the principal (required),
enrich it with persona metadata (`not_found` when absent), and attach
the delegation block; a delegation fetch failure leaves the empty
delegation in place rather than failing. -/
def build_opa_context (fetch_persona_by_user_and_title : PersonaByTitleOracle)
    (compute_delegation_chain : DelegationOracle)
    (authzen_request : List (String × JVal)) :
    Except PyErr (List (String × JVal)) := do
  let (enriched_principal, principal_id) ← context_extract_principal
    fetch_persona_by_user_and_title authzen_request
  let (owner_id, workflow_id) ← context_extract_owner authzen_request
  pure [("delegation", .obj (delegation_block compute_delegation_chain authzen_request
          principal_id owner_id workflow_id)),
        ("principal", .obj enriched_principal)]

/-- Decision triple returned by the engine (`EvaluateResult` dataclass). -/
structure EvaluateResult where
  decision : String
  reason_codes : List String
  advice : List JVal
deriving DecidableEq, Repr

/-- `authz_core.evaluate_authorization_request`: select the manifest via
`context.policy_hint` (failures re-raise as `ValueError`), then run the
four builders, mapping each failure class to its fail-closed deny, and
finally ask the rule engine (`opa_allow` / `opa_reasons` oracles) for
the decision. -/
def evaluate_authorization_request
    (policies : List (String × PolicyManifest))
    (allowed_actions : List String)
    (fetch_persona : PersonaOracle)
    (fetch_persona_by_user_and_title : PersonaByTitleOracle)
    (compute_delegation_chain : DelegationOracle)
    (opa_allow : List (String × JVal) → Bool)
    (opa_reasons : List (String × JVal) → List String)
    (authzen_request : List (String × JVal)) :
    Except PyErr EvaluateResult := do
  let context_for_hint ← match jget authzen_request "context" with
    | some (.obj kvs) => pure kvs
    | some _ => Except.error (.fatal "AttributeError: context is not a dict")
    | none => pure ([] : List (String × JVal))
  let selected_policy ← match select_policy policies (jget context_for_hint "policy_hint") with
    | .ok m => pure m
    | .error e => Except.error (.valueError s!"Policy selection failed: {e}")
  match build_opa_subject authzen_request with
  | .error (.valueError e) =>
      pure ⟨"deny", ["authz.invalid_subject"], [.obj [("message", .str e)]]⟩
  | .error err => Except.error err
  | .ok subject =>
    match build_opa_action allowed_actions authzen_request with
    | .error (.valueError e) =>
        pure ⟨"deny", ["authz.invalid_action"], [.obj [("message", .str e)]]⟩
    | .error err => Except.error err
    | .ok action =>
      match build_opa_resource fetch_persona fetch_persona_by_user_and_title authzen_request
          selected_policy.persona_attributes selected_policy.resource_attributes with
      | .error (.valueError e) =>
          pure ⟨"deny", ["authz.missing_required_attributes"], [.obj [("message", .str e)]]⟩
      | .error (.runtimeError e) =>
          pure ⟨"deny", ["authz.persona_fetch_failed"],
            [.obj [("message", .str ("Failed to fetch owner persona: " ++ e))]]⟩
      | .error err => Except.error err
      | .ok resource =>
        match build_opa_context fetch_persona_by_user_and_title compute_delegation_chain
            authzen_request with
        | .error (.runtimeError e) =>
            pure ⟨"deny", ["authz.system_error"],
              [.obj [("message", .str ("Failed to build context: " ++ e))]]⟩
        | .error err => Except.error err
        | .ok context =>
          let opa_authzen := [("subject", JVal.obj subject), ("action", JVal.obj action),
            ("resource", JVal.obj resource), ("context", JVal.obj context)]
          let is_allowed := opa_allow opa_authzen
          let reasons := opa_reasons opa_authzen
          pure ⟨if is_allowed then "allow" else "deny", reasons, []⟩

/-- `security.sanitize_error_message` with `include_details = true` (the
default `INCLUDE_ERROR_DETAILS=1`): pass the message through, truncating
past 200 characters. -/
def sanitize_error_message (message : String) : String :=
  if message.length > 200 then (py_take message 200) ++ "..." else message

/-- `authz_main.post_evaluate` response behaviour: a `ValueError` from
the pipeline becomes an HTTP 400 error response, an uncaught exception
surfaces as HTTP 500, and an engine result is returned as the response
body. -/
def post_evaluate
    (policies : List (String × PolicyManifest))
    (allowed_actions : List String)
    (fetch_persona : PersonaOracle)
    (fetch_persona_by_user_and_title : PersonaByTitleOracle)
    (compute_delegation_chain : DelegationOracle)
    (opa_allow : List (String × JVal) → Bool)
    (opa_reasons : List (String × JVal) → List String)
    (request_body : List (String × JVal)) :
    Except (Nat × String) EvaluateResult :=
  match evaluate_authorization_request policies allowed_actions fetch_persona
      fetch_persona_by_user_and_title compute_delegation_chain opa_allow opa_reasons
      request_body with
  | .ok r => .ok r
  | .error (.valueError e) => .error (400, sanitize_error_message e)
  | .error (.runtimeError e) => .error (500, e)
  | .error (.fatal e) => .error (500, e)

end FlowPilot

namespace FlowPilot

/-! ## Delegation graph (`delegation-api/graphdb.py` and
`delegation-api/delegation_core.py`)

The PostgreSQL store is modelled as a list of edge rows; the `scope`
column (written via `json.dumps` of a list) is carried parsed, and
UTC instants (ISO-8601 strings, compared chronologically by the SQL
layer and lexicographically by `insert_edge`, which agree on the
normalized form) are abstracted as naturals. -/

/-- One row of the `delegations` table. -/
structure Edge where
  principal_id : String
  delegate_id : String
  workflow_id : Option String
  scope : List String
  expires_at : Nat
  created_at : Nat
  revoked_at : Option Nat
deriving DecidableEq, Repr

/-- Lexicographic code-point comparison (Python `<=` on strings),
implemented over character lists so concrete instances reduce. -/
def chars_le : List Char → List Char → Bool
  | [], _ => true
  | _ :: _, [] => false
  | a :: as, b :: bs =>
      if a.toNat < b.toNat then true
      else if b.toNat < a.toNat then false
      else chars_le as bs

def str_le (a b : String) : Bool :=
  chars_le a.data b.data

/-- Insertion step of `py_sorted`. -/
def insort (x : String) : List String → List String
  | [] => [x]
  | y :: ys => if str_le x y then x :: y :: ys else y :: insort x ys

/-- Python `sorted` over a list of strings (insertion sort, so that
concrete instances evaluate by reduction). -/
def py_sorted (l : List String) : List String :=
  l.foldr insort []

/-- The SQL triple filter `principal_id = %s AND delegate_id = %s AND
(workflow_id = %s OR (workflow_id IS NULL AND %s IS NULL))`. -/
def edge_matches_triple (principal_id delegate_id : String) (workflow_id : Option String)
    (e : Edge) : Bool :=
  e.principal_id = principal_id && e.delegate_id = delegate_id && e.workflow_id = workflow_id

/-- The edge dict built by `graphdb.insert_edge` (and the list rows):
seven keys, in the literal order of the source. -/
def edge_to_dict (e : Edge) : List (String × JVal) :=
  [("principal_id", .str e.principal_id),
   ("delegate_id", .str e.delegate_id),
   ("workflow_id", match e.workflow_id with | some w => .str w | none => .null),
   ("scope", .arr (e.scope.map JVal.str)),
   ("expires_at", .int e.expires_at),
   ("created_at", .int e.created_at),
   ("revoked_at", match e.revoked_at with | some t => .int t | none => .null)]

/-- `DelegationGraphDB.insert_edge`: on a live `(principal, delegate,
workflow)` conflict either return the existing row unchanged (new scope
a subset and new expiry not later) or widen it (scope union, max
expiry); otherwise insert a fresh row.  The result is the single edge
dict of the source — there is no `was_created` component.  The second
component is the post-transaction table.  The table's unconditional
`UNIQUE(principal_id, delegate_id, workflow_id)` constraint makes an
insert against any existing row (live or revoked) fail. -/
def insert_edge (db : List Edge) (now : Nat) (principal_id delegate_id : String)
    (expires_at : Nat) (workflow_id : Option String) (scope : Option (List String)) :
    Except String (List (String × JVal)) × List Edge :=
  let scope := scope.getD ["execute"]
  match db.find? (fun e => edge_matches_triple principal_id delegate_id workflow_id e
      && e.revoked_at = none) with
  | some existing_row =>
      let existing_scope_set := existing_row.scope.toFinset
      let new_scope_set := scope.toFinset
      if ¬ (new_scope_set ⊆ existing_scope_set) ∨ expires_at > existing_row.expires_at then
        -- `sorted(list(existing_scope_set.union(new_scope_set)))`: the sorted
        -- union, computed over the deduplicated concatenation
        let merged_scope := py_sorted ((existing_row.scope ++ scope).dedup)
        let new_expires_at := max expires_at existing_row.expires_at
        let db1 := db.map (fun e =>
          if edge_matches_triple principal_id delegate_id workflow_id e && e.revoked_at = none then
            { e with scope := merged_scope, expires_at := new_expires_at }
          else e)
        match db1.find? (edge_matches_triple principal_id delegate_id workflow_id) with
        | some row => (.ok (edge_to_dict row), db1)
        | none => (.error "Failed to retrieve delegation", db1)
      else
        (.ok (edge_to_dict existing_row), db)
  | none =>
      if db.any (edge_matches_triple principal_id delegate_id workflow_id) then
        -- a revoked row with the same triple: the INSERT violates the unique constraint
        (.error "duplicate key value violates unique constraint", db)
      else
        let row : Edge := ⟨principal_id, delegate_id, workflow_id, scope, expires_at, now, none⟩
        let db1 := db ++ [row]
        match db1.find? (edge_matches_triple principal_id delegate_id workflow_id) with
        | some r => (.ok (edge_to_dict r), db1)
        | none => (.error "Failed to retrieve delegation", db1)

/-- `DelegationGraphDB.revoke_edge`: stamp `revoked_at` on the live
matching rows; report whether any row changed. -/
def revoke_edge (db : List Edge) (now : Nat) (principal_id delegate_id : String)
    (workflow_id : Option String) : Bool × List Edge :=
  let hit := db.any (fun e => edge_matches_triple principal_id delegate_id workflow_id e
    && e.revoked_at = none)
  (hit, db.map (fun e =>
    if edge_matches_triple principal_id delegate_id workflow_id e && e.revoked_at = none then
      { e with revoked_at := some now }
    else e))

/-- The outgoing-edge query of `find_delegation_path`: live edges of
`current_id`, filtered to the workflow (or global) when one is given. -/
def outgoing_live_edges (db : List Edge) (now : Nat) (workflow_id : Option String)
    (current_id : String) : List Edge :=
  db.filter (fun e => e.principal_id = current_id && e.revoked_at = none
    && decide (now < e.expires_at)
    && (match workflow_id with
        | none => true
        | some w => e.workflow_id = some w || e.workflow_id = none))

/-- A candidate result of `find_delegation_path`; `delegated_actions`
carries Python set semantics (the source sorts it into a list on
output, which only fixes an ordering). -/
structure PathResult where
  path : List String
  delegated_actions : Finset String
deriving DecidableEq

/-- The per-row body of the BFS inner loop of `find_delegation_path`:
intersect the tracked actions with the edge scope, drop empty results,
record complete paths reaching the delegate, and enqueue unvisited
nodes.  The accumulator is `(queue, visited, valid_paths)`. -/
def bfs_edge_step (delegate_id : String) (path : List String) (path_actions : Finset String)
    (acc : List (String × List String × Finset String) × List String × List PathResult)
    (row : Edge) :
    List (String × List String × Finset String) × List String × List PathResult :=
  let (queue, visited, valid_paths) := acc
  let next_id := row.delegate_id
  let edge_actions := row.scope.toFinset
  let new_path_actions := path_actions ∩ edge_actions
  if new_path_actions = ∅ then acc
  else if next_id = delegate_id then
    (queue, visited, valid_paths ++ [⟨path ++ [next_id], new_path_actions⟩])
  else if next_id ∉ visited then
    (queue ++ [(next_id, path ++ [next_id], new_path_actions)],
     visited ++ [next_id], valid_paths)
  else acc

/-- The BFS loop of `find_delegation_path`.  Queue items are `(current,
path, path_actions)`; `visited` grows by exactly the enqueued node of
each appended item, and appended nodes are delegate ids of rows of
`db`, so at most `db.length` items are ever appended after the initial
one; each iteration pops one item, hence fuel `db.length + 1` always
outlives the queue and the zero-fuel branch is unreachable. -/
def find_delegation_path_loop (db : List Edge) (now : Nat) (workflow_id : Option String)
    (delegate_id : String) (max_depth : Nat) :
    Nat → List (String × List String × Finset String) → List String → List PathResult →
    List PathResult
  | 0, _, _, valid_paths => valid_paths
  | fuel + 1, queue, visited, valid_paths =>
      match queue with
      | [] => valid_paths
      | (current_id, path, path_actions) :: rest =>
          if path.length ≤ max_depth then
            let rows := outgoing_live_edges db now workflow_id current_id
            let step := rows.foldl (bfs_edge_step delegate_id path path_actions)
              (rest, visited, valid_paths)
            find_delegation_path_loop db now workflow_id delegate_id max_depth fuel
              step.1 step.2.1 step.2.2
          else valid_paths

/-- `path_strength`: prefer paths whose action set contains `execute`,
then shorter paths. -/
def path_strength (p : PathResult) : Nat × Int :=
  (if "execute" ∈ p.delegated_actions then 1 else 0, -(p.path.length : Int))

/-- Python tuple comparison used by `max(..., key=path_strength)`. -/
def key_lt (a b : Nat × Int) : Bool :=
  a.1 < b.1 || (a.1 = b.1 && a.2 < b.2)

/-- Python `max(xs, key=f)`: first maximal element. -/
def py_max_by (key : PathResult → Nat × Int) : List PathResult → Option PathResult
  | [] => none
  | x :: xs => some (xs.foldl (fun best y => if key_lt (key best) (key y) then y else best) x)

/-- `DelegationGraphDB.find_delegation_path`: BFS over live edges whose
action tracking starts from the full set `{read, execute}` and
intersects every traversed scope; identity queries return the full set
directly. -/
def find_delegation_path (db : List Edge) (now : Nat) (principal_id delegate_id : String)
    (workflow_id : Option String) (max_depth : Nat) : Option PathResult :=
  if principal_id = delegate_id then
    some ⟨[principal_id], ({"read", "execute"} : Finset String)⟩
  else
    let valid_paths := find_delegation_path_loop db now workflow_id delegate_id max_depth
      (db.length + 1)
      [(principal_id, [principal_id], ({"read", "execute"} : Finset String))]
      [principal_id] []
    py_max_by path_strength valid_paths

/-- A list of edges forming a live chain along a vertex path under the
workflow filter of `find_delegation_path`. -/
def chains (db : List Edge) (now : Nat) (workflow_id : Option String) :
    List String → List Edge → Bool
  | [_], [] => true
  | a :: b :: rest, e :: es =>
      decide (e ∈ outgoing_live_edges db now workflow_id a) && e.delegate_id = b
        && chains db now workflow_id (b :: rest) es
  | _, _ => false

/-- Intersection of the per-edge scopes along a path, the quantity the
specification ascribes to `find_path` results.  Modelled from the spec:
"p.delegated_actions = the intersection of edge.scope for edge in
path_edges(p)"; the empty-chain (identity) case is left to the
full-action-set convention. -/
def path_edges_scope_intersection : List Edge → Finset String
  | [] => ∅
  | e :: es => es.foldl (fun acc x => acc ∩ x.scope.toFinset) e.scope.toFinset

/-- Invariant of a BFS queue item for source `src`: the tracked path
starts at the source, ends at the current node, and its action set is
the seed `{read, execute}` intersected along a live chain. -/
def bfs_queue_inv (db : List Edge) (now : Nat) (wf : Option String) (src : String)
    (q : String × List String × Finset String) : Prop :=
  q.2.1.head? = some src ∧ q.2.1.getLast? = some q.1 ∧
    ∃ es, chains db now wf q.2.1 es = true ∧
      q.2.2 = es.foldl (fun acc e => acc ∩ e.scope.toFinset)
        ({"read", "execute"} : Finset String)

/-- Invariant of a recorded valid path of the BFS. -/
def bfs_valid_inv (db : List Edge) (now : Nat) (wf : Option String)
    (src delegate : String) (max_depth : Nat) (r : PathResult) : Prop :=
  r.path.head? = some src ∧ r.path.getLast? = some delegate ∧
    r.path.length ≤ max_depth + 1 ∧
    ∃ es, chains db now wf r.path es = true ∧
      r.delegated_actions = es.foldl (fun acc e => acc ∩ e.scope.toFinset)
        ({"read", "execute"} : Finset String)

/-- `utils.require_non_empty_string` (on an argument statically known to
be a string): reject blank values, return the stripped value. -/
def require_non_empty_string (value : String) (field_name : String) : Except String String :=
  if py_strip value = "" then .error s!"{field_name} must be a non-empty string"
  else .ok (py_strip value)

/-- Result dict of `DelegationService.validate_delegation`. -/
structure ValidationResult where
  valid : Bool
  delegation_chain : List String
  delegated_actions : Finset String
deriving DecidableEq

/-- `DelegationService.validate_delegation`: identity delegates get the
configured `DELEGATION_ALLOWED_ACTIONS`; otherwise a path search with
the default `max_depth = 5`. -/
def validate_delegation (delegation_allowed_actions : List String) (db : List Edge) (now : Nat)
    (principal_id delegate_id : String) (workflow_id : Option String) :
    Except String ValidationResult := do
  let principal_id ← require_non_empty_string principal_id "principal_id"
  let delegate_id ← require_non_empty_string delegate_id "delegate_id"
  if delegate_id = principal_id then
    pure ⟨true, [principal_id], delegation_allowed_actions.toFinset⟩
  else
    match find_delegation_path db now principal_id delegate_id workflow_id 5 with
    | some path_result => pure ⟨true, path_result.path, path_result.delegated_actions⟩
    | none => pure ⟨false, [], ∅⟩

/-- Python tuple unpacking `a, b = d` over a dict iterates the keys. -/
def dict_unpack2 (kvs : List (String × JVal)) : Except String (String × String) :=
  match kvs.map Prod.fst with
  | [a, b] => .ok (a, b)
  | xs =>
      if xs.length < 2 then .error "not enough values to unpack (expected 2)"
      else .error "too many values to unpack (expected 2)"

/-- Sorted rendering of a Python set for error messages (CPython leaves
the ordering of `list(set)` unspecified; the model fixes it). -/
def action_set_repr (s : Finset String) : String :=
  "[" ++ String.intercalate ", " (s.sort (· ≤ ·)) ++ "]"

/-- The requested action set of `create_delegation`:
`set(scope) if scope else {"execute"}` (an empty list is falsy). -/
def requested_scope_set (scope : Option (List String)) : Finset String :=
  match scope with
  | some s => if s ≠ [] then s.toFinset else {"execute"}
  | none => {"execute"}

/-- `DelegationService.create_delegation`: validate the arguments, let a
non-owner delegator pass only when a live path grants at least the
requested scope, insert the edge, and then tuple-unpack the edge dict
`insert_edge` returns — which has seven keys, not two.  The resulting
pair is the call outcome together with the final table state. -/
def create_delegation (delegation_allowed_actions : List String) (db : List Edge) (now : Nat)
    (principal_id delegate_id : String) (expires_in_days : Int)
    (workflow_id : Option String) (scope : Option (List String))
    (delegator_id : Option String) :
    Except String (List (String × JVal)) × List Edge :=
  match require_non_empty_string principal_id "principal_id" with
  | .error e => (.error e, db)
  | .ok principal_id =>
    match require_non_empty_string delegate_id "delegate_id" with
    | .error e => (.error e, db)
    | .ok delegate_id =>
      if principal_id = delegate_id then
        (.error "principal_id cannot be the same as delegate_id", db)
      else if expires_in_days ≤ 0 then
        (.error "expires_in_days must be positive", db)
      else
        let guard : Except String Unit :=
          match delegator_id with
          | some delegator =>
              if delegator ≠ "" && delegator ≠ principal_id then
                match validate_delegation delegation_allowed_actions db now principal_id
                    delegator workflow_id with
                | .error e => .error e
                | .ok delegator_validation =>
                    if !delegator_validation.valid then
                      .error "You cannot delegate permissions you don\x27t have"
                    else
                      let delegator_actions := delegator_validation.delegated_actions
                      let requested_actions := requested_scope_set scope
                      if ¬ (requested_actions ⊆ delegator_actions) then
                        .error ("Cannot delegate " ++ action_set_repr requested_actions
                          ++ ". You only have " ++ action_set_repr delegator_actions
                          ++ " permissions.")
                      else .ok ()
              else .ok ()
          | none => .ok ()
        match guard with
        | .error e => (.error e, db)
        | .ok _ =>
            let expires_at := now + expires_in_days.toNat
            match insert_edge db now principal_id delegate_id expires_at workflow_id scope with
            | (.error e, db1) => (.error e, db1)
            | (.ok delegation_dict, db1) =>
                -- delegation, was_created = self.graphdb.insert_edge(...)
                match dict_unpack2 delegation_dict with
                | .error e => (.error e, db1)
                | .ok _ =>
                    (.error "str object does not support item assignment", db1)

end FlowPilot

namespace FlowPilot

/-! ## Persona registry (`shared-libraries/persona_config.py`,
`persona-api/personadb_sqlite.py`, `persona-api/persona_core.py`)

The manifest-driven persona attribute schema of
`get_persona_attribute_schema` is an association list from attribute
name to `{type, required, default}`.  UTC instants are abstracted as
naturals whose unit is one day, so `now + 365` models
`now + timedelta(days=365)`. -/

/-- One entry of the persona attribute schema. -/
structure PersonaAttrSchema where
  type : String
  required : Bool
  default : Option JVal := none
deriving DecidableEq, Repr

abbrev PersonaSchema := List (String × PersonaAttrSchema)

/-- Lowercase-alphanumeric character class of the email regex. -/
def is_lower_alnum (c : Char) : Bool :=
  (97 ≤ c.toNat && c.toNat ≤ 122) || c.isDigit

/-- The email pattern of `utils.coerce_email`
(`[a-z0-9][a-z0-9._+-]*@[a-z0-9][a-z0-9.-]*[.][a-z]{2,}`). -/
def email_matches (cs : List Char) : Bool :=
  match split_chars '@' cs with
  | [localPart, domainPart] =>
      (match localPart with
       | [] => false
       | c :: rest =>
           is_lower_alnum c
             && rest.all (fun ch => is_lower_alnum ch || ch ∈ ['.', '_', '+', '-']))
        && (match (split_chars '.' domainPart).reverse with
            | tld :: revInit =>
                decide (tld.length ≥ 2)
                  && tld.all (fun ch => 97 ≤ ch.toNat && ch.toNat ≤ 122)
                  && (match List.intercalate ['.'] revInit.reverse with
                      | [] => false
                      | c :: rest =>
                          is_lower_alnum c
                            && rest.all (fun ch => is_lower_alnum ch || ch = '.' || ch = '-'))
            | [] => false)
  | _ => false

/-- `utils.coerce_email`: lowercase-normalize and validate; fall back to
the default on anything that does not look like an email. -/
def coerce_email (value : JVal) (default : Option String) : Option String :=
  match value with
  | .str s =>
      let email_str := py_lower (py_strip s)
      if email_str = "" then default
      else if email_matches email_str.data then some email_str
      else default
  | _ => default

/-- `persona_config.coerce_attribute_value`: coerce by manifest type,
silently substituting a type default for non-conforming values (`0.0`
for float, `0` for integer, `False` for boolean, the stringified value
for string and date). -/
def coerce_attribute_value (attr_value : JVal) (attr_type : String) : JVal :=
  if attr_type = "float" then
    match attr_value with
    | .int n => .num (n : Rat)
    | .num q => .num q
    | _ => .num 0
  else if attr_type = "integer" then
    match attr_value with
    | .int n => .int n
    | .num q => .int (pyTruncRat q)
    | _ => .int 0
  else if attr_type = "boolean" then
    match attr_value with
    | .bool b => .bool b
    | _ => .bool false
  else if attr_type = "date" then
    match attr_value with
    | .null => .str ""
    | v => .str (pyStr v)
  else if attr_type = "email" then
    .str ((coerce_email attr_value (some "")).getD "")
  else
    match attr_value with
    | .null => .str ""
    | v => .str (pyStr v)

/-- `persona_config.apply_attribute_defaults`. -/
def apply_attribute_defaults (attributes_dict : List (String × JVal))
    (schema : PersonaSchema) : List (String × JVal) :=
  schema.foldl (fun result entry =>
    if !(jmem result entry.1) || jget result entry.1 = some .null then
      match entry.2.default with
      | some d => jset result entry.1 d
      | none => result
    else result) attributes_dict

/-- `persona_config.validate_required_attributes`: `none` on success,
the error message otherwise. -/
def validate_required_attributes (attributes_dict : List (String × JVal))
    (schema : PersonaSchema) : Option String :=
  let missing_required := (schema.filter (fun entry =>
    entry.2.required && (!(jmem attributes_dict entry.1)
      || jget attributes_dict entry.1 = some .null))).map Prod.fst
  if missing_required ≠ [] then
    some ("Missing required persona attributes: " ++ String.intercalate ", " missing_required)
  else none

/-- `persona_config.apply_defaults_and_coerce_attributes`: defaults,
required-attribute validation, then type coercion; the second component
is the validation error (`none` on success), mirroring the Python
`(dict, error)` tuple. -/
def apply_defaults_and_coerce_attributes (attributes_dict : List (String × JVal))
    (schema : PersonaSchema) : List (String × JVal) × Option String :=
  let result := apply_attribute_defaults attributes_dict schema
  match validate_required_attributes result schema with
  | some validation_error => ([], some validation_error)
  | none =>
      (schema.foldl (fun result entry =>
        if jmem result entry.1 then
          jset result entry.1 (coerce_attribute_value ((jget result entry.1).getD .null) entry.2.type)
        else result) result, none)

/-- Python `int(v)` with its exceptions (used for the `consent` column). -/
def py_int_exn : JVal → Except String Int
  | .bool b => .ok (if b then 1 else 0)
  | .int n => .ok n
  | .num q => .ok (pyTruncRat q)
  | .str s =>
      match parseInt? s with
      | some n => .ok n
      | none => .error "invalid literal for int() with base 10"
  | .null => .error "int() argument must be a string, a bytes-like object or a real number, not NoneType"
  | _ => .error "int() argument type error"

/-- One row of the sqlite `personas` table: the store has a fixed column
set; the policy attributes it persists are exactly `consent` (INTEGER,
written through `int(...)`), `autobook_price`, `autobook_leadtime` and
`autobook_risklevel` (stored as given). -/
structure PersonaRow where
  persona_id : String
  user_sub : String
  title : String
  circle : JVal
  scope : List String
  valid_from : Nat
  valid_till : Nat
  status : String
  created_at : Nat
  updated_at : Nat
  consent : Int
  autobook_price : JVal
  autobook_leadtime : JVal
  autobook_risklevel : JVal
deriving DecidableEq, Repr

/-- A persona record as returned by `PersonaDB._row_to_dict` (note
`consent` comes back through `bool(...)`). -/
structure Persona where
  persona_id : String
  user_sub : String
  title : String
  circle : JVal
  scope : List String
  valid_from : Nat
  valid_till : Nat
  status : String
  created_at : Nat
  updated_at : Nat
  consent : Bool
  autobook_price : JVal
  autobook_leadtime : JVal
  autobook_risklevel : JVal
deriving DecidableEq, Repr

/-- `PersonaDB._row_to_dict`. -/
def row_to_dict (r : PersonaRow) : Persona :=
  ⟨r.persona_id, r.user_sub, r.title, r.circle, r.scope, r.valid_from, r.valid_till,
   r.status, r.created_at, r.updated_at, r.consent ≠ 0,
   r.autobook_price, r.autobook_leadtime, r.autobook_risklevel⟩

/-- The key/value rendering of `PersonaDB._row_to_dict`: the returned
dict has exactly these fourteen keys, whatever dynamic attributes the
manifest declares. -/
def persona_dict (p : Persona) : List (String × JVal) :=
  [("persona_id", .str p.persona_id), ("user_sub", .str p.user_sub),
   ("title", .str p.title), ("circle", p.circle),
   ("scope", .arr (p.scope.map JVal.str)),
   ("valid_from", .int p.valid_from), ("valid_till", .int p.valid_till),
   ("status", .str p.status), ("created_at", .int p.created_at),
   ("updated_at", .int p.updated_at), ("consent", .bool p.consent),
   ("autobook_price", p.autobook_price), ("autobook_leadtime", p.autobook_leadtime),
   ("autobook_risklevel", p.autobook_risklevel)]

/-- `PersonaDB.create_persona` (sqlite backend): composite persona id,
defaults for `scope`, `valid_from` (now), `valid_till` (now + 365 days)
and `status` (`active`); rejects an existing persona id; extracts the
four fixed policy-attribute columns from the dynamic attributes with
their defaults and inserts the row. -/
def db_create_persona (store : List PersonaRow) (now : Nat) (user_sub title : String)
    (circle : JVal) (scope : Option (List String)) (valid_from valid_till : Option Nat)
    (status : Option String) (custom_attributes : List (String × JVal)) :
    Except String (Persona × List PersonaRow) :=
  let persona_id := user_sub ++ "_" ++ title ++ "_" ++ pyStr circle
  let scope := scope.getD ["read", "execute"]
  let valid_from := valid_from.getD now
  let valid_till := valid_till.getD (now + 365)
  let status := status.getD "active"
  if store.any (fun r => r.persona_id = persona_id) then
    .error ("Persona with title \x27" ++ title ++ "\x27 and circle \x27" ++ pyStr circle
      ++ "\x27 already exists for this user. Use PATCH/PUT (update) instead of POST (create) to modify it. Existing persona_id: "
      ++ persona_id)
  else
    let consent := (jget custom_attributes "consent").getD (.bool false)
    let autobook_price := (jget custom_attributes "autobook_price").getD (.int 0)
    let autobook_leadtime := (jget custom_attributes "autobook_leadtime").getD (.int 0)
    let autobook_risklevel := (jget custom_attributes "autobook_risklevel").getD (.int 0)
    match py_int_exn consent with
    | .error e => .error e
    | .ok consent_int =>
        let row : PersonaRow := ⟨persona_id, user_sub, title, circle, scope, valid_from,
          valid_till, status, now, now, consent_int, autobook_price, autobook_leadtime,
          autobook_risklevel⟩
        let store1 := store ++ [row]
        match store1.find? (fun r => r.persona_id = persona_id) with
        | some r => .ok (row_to_dict r, store1)
        | none => .error "Failed to retrieve persona"

/-- `PersonaDB.get_persona`. -/
def db_get_persona (store : List PersonaRow) (persona_id : String) : Option Persona :=
  (store.find? (fun r => r.persona_id = persona_id)).map row_to_dict

/-- `PersonaDB.list_personas` (the `created_at DESC` ordering is
irrelevant to the embedded claims and omitted). -/
def db_list_personas (store : List PersonaRow) (user_sub : String)
    (status : Option String) : List Persona :=
  ((store.filter (fun r => r.user_sub = user_sub
      && (match status with | some s => r.status = s | none => true))).map row_to_dict)

/-- `PersonaService.create_persona`: validate title, status and the
per-user cap, default the scope to `[]`, run the manifest
defaults/validation/coercion over the dynamic attributes, and call the
store.  The service signature has no `circle` parameter: the store
binds `circle` from the processed dynamic attributes, and a request
without one fails with the `TypeError` of the missing positional
argument. -/
def service_create_persona (allowed_titles allowed_statuses : List String)
    (max_personas_per_user : Nat) (schema : PersonaSchema)
    (store : List PersonaRow) (now : Nat)
    (user_sub title : String) (scope : Option (List String))
    (valid_from valid_till : Option Nat) (status : Option String)
    (custom_attributes : List (String × JVal)) :
    Except String (Persona × List PersonaRow) :=
  if title ∉ allowed_titles then
    .error ("Invalid persona title \x27" ++ title ++ "\x27. Allowed: "
      ++ String.intercalate ", " allowed_titles)
  else if (match status with | some s => !(allowed_statuses.contains s) | none => false) then
    .error ("Invalid status \x27" ++ status.getD "" ++ "\x27. Allowed: "
      ++ String.intercalate ", " allowed_statuses)
  else if (db_list_personas store user_sub none).length ≥ max_personas_per_user then
    .error ("Maximum " ++ toString max_personas_per_user
      ++ " personas per user. Delete an existing persona first.")
  else
    let scope := scope.getD []
    match apply_defaults_and_coerce_attributes custom_attributes schema with
    | (_, some validation_error) =>
        .error ("Attribute validation failed: " ++ validation_error)
    | (processed_attrs, none) =>
        match jget processed_attrs "circle" with
        | none => .error "create_persona() missing 1 required positional argument: circle"
        | some circle_value =>
            db_create_persona store now user_sub title circle_value (some scope)
              valid_from valid_till status
              (processed_attrs.filter (fun p => p.1 ≠ "circle"))

end FlowPilot

namespace FlowPilot

/-! ## Agent runner (`ai-agent-api/ai_agent_core.py`, `ai_agent_main.py`)

The HTTP collaborators are abstracted as data: a domain-service response
is either a status/body pair or a transport failure
(`requests.RequestException`).  The `parsed` component of a response
carries the result of `json.loads` on the body when the body parses
(`none` when `json.loads` would raise).  URLs, headers, tokens and
timeouts are deployment configuration and are elided; `run_id` (a UUID
minted inside `execute_workflow_run`) is passed as a parameter. -/

/-- A domain-service HTTP response as seen through `requests`. -/
inductive HttpResp where
  | resp (status : Nat) (text : String) (parsed : Option JVal)
  | netError (msg : String)
deriving Repr

/-- Character-list test `starts_with_chars p cs`: `p` begins `cs`. -/
def starts_with_chars : List Char → List Char → Bool
  | [], _ => true
  | _ :: _, [] => false
  | p :: ps, c :: cs => p = c && starts_with_chars ps cs

/-- Python `str.find`: index of the first occurrence of `pat` in `cs`
starting at offset `i`, `none` when absent. -/
def find_sub_from (pat : List Char) (cs : List Char) (i : Nat) : Option Nat :=
  if starts_with_chars pat cs then some i
  else
    match cs with
    | [] => none
    | _ :: rest => find_sub_from pat rest (i + 1)

def find_sub (pat cs : List Char) : Option Nat :=
  find_sub_from pat cs 0

/-- Python `pat in s` substring containment. -/
def contains_sub (pat cs : List Char) : Bool :=
  (find_sub pat cs).isSome

/-- Python `str.strip(chars)`: drop the given characters from both ends. -/
def strip_set (bad : List Char) (cs : List Char) : List Char :=
  ((cs.dropWhile (fun c => c ∈ bad)).reverse.dropWhile (fun c => c ∈ bad)).reverse

/-- The single- and double-quote characters stripped by
`part.strip()` / `.strip()` of quote sets in the deny-body parser. -/
def quote_chars : List Char := [Char.ofNat 39, Char.ofNat 34]

def open_brace_char : Char := Char.ofNat 123

/-- The message normalisation step of `parse_policy_deny_from_body`:
when the (stripped) body looks like JSON it is parsed — a body that
starts with a brace but does not parse raises `json.JSONDecodeError`
(a `ValueError`) — and a non-empty string `detail` replaces the
message. -/
def deny_body_message (message : String) (parsed : Option JVal) : Except String String :=
  if starts_with_chars [open_brace_char] message.data then
    match parsed with
    | none => .error "Expecting value: line 1 column 1 (char 0)"
    | some (.obj kvs) =>
        match jget kvs "detail" with
        | some (.str d) => if py_strip d ≠ "" then .ok (py_strip d) else .ok message
        | _ => .ok message
    | some _ => .ok message
  else .ok message

/-- The bracket-extraction heuristic of `parse_policy_deny_from_body`:
after `reason_codes=`, split the `[...]` fragment on commas and strip
whitespace and quotes. -/
def extract_reason_codes (message : String) : List String :=
  let cs := message.data
  if contains_sub ("reason_codes".data) cs then
    match find_sub ("reason_codes=".data) cs with
    | some start =>
        let fragment := cs.drop start
        match find_sub ['['] fragment, find_sub [']'] fragment with
        | some left, some right =>
            if left < right then
              let content := (fragment.drop (left + 1)).take (right - (left + 1))
              ((split_chars ',' content).filter
                  (fun part => py_strip (String.mk part) ≠ "")).map
                (fun part => String.mk (strip_set quote_chars (py_strip (String.mk part)).data))
            else []
        | _, _ => []
    | none => []
  else []

/-- `ai_agent_core.parse_policy_deny_from_body` (the second argument is
the JSON parse of `response_text`, consulted only when the stripped text
starts with a brace). -/
def parse_policy_deny_from_body (response_text : String) (parsed : Option JVal) :
    Except String (List String × String) :=
  match deny_body_message (py_strip response_text) parsed with
  | .error e => .error e
  | .ok message =>
      let reason_codes := extract_reason_codes message
      let reason_codes :=
        if reason_codes = [] then
          if contains_sub ("***REMOVED***.deny".data) message.data then
            ["***REMOVED***.deny"]
          else []
        else reason_codes
      .ok (reason_codes, message)

/-- Python `list(v or [])` over a JSON value: falsy values give `[]`,
lists are copied, strings iterate to their characters, dicts to their
keys, and non-iterable truthy values raise `TypeError`. -/
def py_list_or_empty (v : JVal) : Except String (List JVal) :=
  if !pyTruthy v then .ok []
  else
    match v with
    | .arr xs => .ok xs
    | .str s => .ok (s.data.map (fun c => JVal.str (String.mk [c])))
    | .obj kvs => .ok (kvs.map (fun p => JVal.str p.1))
    | _ => .error "object is not iterable"

/-- `ai_agent_core.post_execute_workflow_item`: a 2xx response returns
its parsed body (an unparseable 2xx body surfaces as the
`invalid JSON response` `RuntimeError`, which this function catches and
re-parses, yielding a `none` body); a non-2xx response surfaces as the
`HTTP POST non-2xx` `RuntimeError`, from whose message status and body
text are recovered, the body being re-parsed when it looks like a JSON
object.  A transport error (`requests.RequestException`) is not a
`RuntimeError` and is not caught. -/
def post_execute_workflow_item (resp : HttpResp) :
    Except PyErr (Nat × Option JVal × String) :=
  match resp with
  | .netError msg => .error (.fatal msg)
  | .resp status text parsed =>
      if 200 ≤ status ∧ status < 300 then
        match parsed with
        | some v => .ok (200, some v, "")
        | none => .ok (status, none, text)
      else
        .ok (status,
          (if starts_with_chars [open_brace_char] (py_strip text).data then
            match parsed with
            | some (.obj kvs) => some (.obj kvs)
            | _ => none
          else none),
          text)

/-- One classified item outcome of `execute_workflow_item`. -/
structure ItemResult where
  http_status : Nat
  status : String
  outcome : String
  reason_codes : List JVal
  advice : List JVal
  response : Option JVal
deriving DecidableEq, Repr

def access_denied_advice : JVal :=
  .obj [("type", .str "deny"), ("message", .str "Access denied")]

/-- `ai_agent_core.execute_workflow_item`: validate inputs, call the
domain execute endpoint, and classify — 2xx is `completed`/`allow`,
403 is `completed`/`deny` with reason codes and advice taken from a
structured body or heuristically parsed from the text, and any other
status is `error`/`deny` with reason code
`agent_runner.item_execution_failed`.  (The URL embedded in the
error-advice message is deployment configuration and elided.) -/
def execute_workflow_item (workflow_id workflow_item_id : String)
    (principal_user : List (String × JVal)) (resp : HttpResp) :
    Except PyErr ItemResult :=
  match require_non_empty_string workflow_id "workflow_id" with
  | .error e => .error (.valueError e)
  | .ok _ =>
  match require_non_empty_string workflow_item_id "workflow_item_id" with
  | .error e => .error (.valueError e)
  | .ok _ =>
  if !optTruthy (jget principal_user "id") then
    .error (.valueError "Invalid principal_user object")
  else
    match post_execute_workflow_item resp with
    | .error e => .error e
    | .ok (status_code, response_json, response_text) =>
        if 200 ≤ status_code ∧ status_code < 300 then
          .ok ⟨status_code, "completed", "allow", [], [], response_json⟩
        else if status_code = 403 then
          match
            ((match response_json with
             | some (.obj kvs) =>
                 if pyTruthy (.obj kvs) then
                   match (jget kvs "detail").getD (.obj []) with
                   | .obj dkvs =>
                       (match py_list_or_empty ((jget dkvs "reason_codes").getD (.arr [])) with
                        | .error e => .error (.fatal e)
                        | .ok rcs =>
                            match py_list_or_empty ((jget dkvs "advice").getD (.arr [])) with
                            | .error e => .error (.fatal e)
                            | .ok adv => .ok (rcs, adv))
                   | .str _ =>
                       (match parse_policy_deny_from_body response_text response_json with
                        | .error e => .error (.valueError e)
                        | .ok (rcs, message) =>
                            .ok (rcs.map JVal.str,
                              if message ≠ "" then
                                [.obj [("type", .str "deny"), ("message", .str message)]]
                              else []))
                   | _ => .ok ([], [])
                 else
                   (match parse_policy_deny_from_body response_text response_json with
                    | .error e => .error (.valueError e)
                    | .ok (rcs, message) =>
                        .ok (rcs.map JVal.str,
                          if message ≠ "" then
                            [.obj [("type", .str "deny"), ("message", .str message)]]
                          else []))
             | _ =>
                 (match parse_policy_deny_from_body response_text response_json with
                  | .error e => .error (.valueError e)
                  | .ok (rcs, message) =>
                      .ok (rcs.map JVal.str,
                        if message ≠ "" then
                          [.obj [("type", .str "deny"), ("message", .str message)]]
                        else []))) : Except PyErr (List JVal × List JVal))
          with
          | .error e => .error e
          | .ok (reason_codes, advice) =>
              .ok ⟨status_code, "completed", "deny", reason_codes,
                (if advice ≠ [] then advice else [access_denied_advice]), response_json⟩
        else
          .ok ⟨status_code, "error", "deny", [.str "agent_runner.item_execution_failed"],
            [.obj [("type", .str "error"),
              ("message", .str ("HTTP POST non-2xx: http=" ++ toString status_code
                ++ " body=" ++ response_text))]],
            response_json⟩

end FlowPilot

namespace FlowPilot

/-- A workflow item as normalised by `list_workflow_items` (the raw
payload dict is not consulted by the run loop and elided). -/
structure WorkflowItem where
  workflow_item_id : String
  kind : String
deriving DecidableEq, Repr

/-- The outcome of `list_workflow_items` as observed by
`execute_workflow_run`: a normalised item list, the
`HTTP GET non-2xx` `RuntimeError` of `http_get_json` (carrying the
status, the body text and its JSON parse, `none` when unparseable), or
any other `ValueError`/`RuntimeError` (transport failures surface as
`RuntimeError` messages without an `http=` marker and malformed
payloads as `ValueError`s). -/
inductive ListItemsResult where
  | ok (items : List WorkflowItem)
  | httpError (status : Nat) (text : String) (parsed : Option JVal)
  | failure (msg : String)
deriving Repr

/-- One normalised per-item entry of a run record. -/
structure RunItemEntry where
  workflow_item_id : String
  kind : String
  status : String
  decision : String
  reason_codes : List JVal
  advice : List JVal
deriving DecidableEq, Repr

/-- The `error` object of a 403-listing run record. -/
structure RunError where
  message : JVal
  reason_codes : JVal
deriving DecidableEq, Repr

/-- A workflow run record. -/
structure RunRecord where
  run_id : String
  workflow_id : String
  principal_sub : JVal
  principal_user : List (String × JVal)
  dry_run : Bool
  results : List RunItemEntry
  error : Option RunError
deriving DecidableEq, Repr

/-- The `error` field of the 403-listing run record: defaults
`workflow_access_denied` / read-access message, overridden from a parsed
JSON body whose `detail` is a dict; a non-dict first advice element
raises `AttributeError` (not in the caught-exception tuple). -/
def listing_denied_error (parsed : Option JVal) : Except String RunError :=
  let default_codes : JVal := .arr [.str "workflow_access_denied"]
  let default_msg : JVal := .str "Principal does not have read access to this workflow"
  match parsed with
  | some (.obj kvs) =>
      match (jget kvs "detail").getD (.obj []) with
      | .obj dkvs =>
          let reason_codes := (jget dkvs "reason_codes").getD default_codes
          let advice_list := (jget dkvs "advice").getD (.arr [])
          (match advice_list with
           | .arr (a :: _) =>
               if pyTruthy advice_list then
                 match a with
                 | .obj akvs => .ok ⟨(jget akvs "message").getD default_msg, reason_codes⟩
                 | _ => .error "object has no attribute get"
               else .ok ⟨default_msg, reason_codes⟩
           | _ => .ok ⟨default_msg, reason_codes⟩)
      | _ => .ok ⟨default_msg, default_codes⟩
  | _ => .ok ⟨default_msg, default_codes⟩

/-- The per-item loop of `execute_workflow_run`: every item yields one
entry — an `ItemResult` is copied field-for-field, a `ValueError` from
`execute_workflow_item` becomes an `error`/`deny` entry with reason code
`agent_runner.item_execution_failed` — while any other exception
(a transport `requests.RequestException`, a `TypeError`) propagates and
aborts the whole loop. -/
def run_items (workflow_id : String) (principal_user : List (String × JVal))
    (item_resp : String → HttpResp) : List WorkflowItem → Except PyErr (List RunItemEntry)
  | [] => .ok []
  | item :: rest =>
      match execute_workflow_item workflow_id item.workflow_item_id principal_user
        (item_resp item.workflow_item_id) with
      | .ok r =>
          (match run_items workflow_id principal_user item_resp rest with
           | .ok entries =>
               .ok (⟨item.workflow_item_id, item.kind, r.status, r.outcome,
                 r.reason_codes, r.advice⟩ :: entries)
           | .error e => .error e)
      | .error (.valueError m) =>
          (match run_items workflow_id principal_user item_resp rest with
           | .ok entries =>
               .ok (⟨item.workflow_item_id, item.kind, "error", "deny",
                 [.str "agent_runner.item_execution_failed"],
                 [.obj [("type", .str "error"), ("message", .str m)]]⟩ :: entries)
           | .error e => .error e)
      | .error e => .error e

/-- `ai_agent_core.execute_workflow_run`: validate inputs, list the
items, and iterate.  A listing failure whose message carries `http=403`
yields a run record with empty `results` and a populated `error`
object; any other listing failure re-raises.  (The `http=403` marker
test is modelled on the status and body of the listing response; the
`body=`-splitting of the error message recovers exactly the body
text.) -/
def execute_workflow_run (run_id workflow_id : String)
    (principal_user : List (String × JVal)) (dry_run : Bool)
    (listing : ListItemsResult) (item_resp : String → HttpResp) :
    Except PyErr RunRecord :=
  match require_non_empty_string workflow_id "workflow_id" with
  | .error e => .error (.valueError e)
  | .ok _ =>
  if !optTruthy (jget principal_user "id") then
    .error (.valueError "Invalid principal_user object")
  else
    match listing with
    | .failure msg => .error (.runtimeError msg)
    | .httpError status text parsed =>
        if status = 403 ∨ contains_sub ("http=403".data) text.data then
          match listing_denied_error parsed with
          | .error e => .error (.fatal e)
          | .ok err =>
              .ok ⟨run_id, workflow_id, (jget principal_user "id").getD (.str ""),
                principal_user, dry_run, [], some err⟩
        else
          .error (.runtimeError ("HTTP GET non-2xx: http=" ++ toString status
            ++ " body=" ++ text))
    | .ok items =>
        match run_items workflow_id principal_user item_resp items with
        | .error e => .error e
        | .ok results =>
            .ok ⟨run_id, workflow_id, (jget principal_user "id").getD (.str ""),
              principal_user, dry_run, results, none⟩

/-- `ai_agent_main.handle_post_workflow_runs` after token handling: the
pre-flight authorization result decides between an HTTP 403 error
response and running the workflow; `normalize_workflow_id` rejects a
blank workflow id with a `ValueError` (HTTP 400); a `ValueError` from
the run maps to HTTP 400 and any other exception to HTTP 500. -/
def handle_post_workflow_runs (authz_result : List (String × JVal))
    (workflow_id : String) (principal_user : List (String × JVal)) (dry_run : Bool)
    (run_id : String) (listing : ListItemsResult) (item_resp : String → HttpResp) :
    Except (Nat × String) RunRecord :=
  if py_strip workflow_id = "" then
    .error (400, sanitize_error_message "Missing workflow_id")
  else if jget authz_result "decision" ≠ some (.str "allow") then
    .error (403, "Workflow execution not authorized: "
      ++ pyStr ((jget authz_result "reason_codes").getD (.arr [])))
  else
    match execute_workflow_run run_id (py_strip workflow_id) principal_user dry_run
      listing item_resp with
    | .ok r => .ok r
    | .error (.valueError m) => .error (400, sanitize_error_message m)
    | .error (.runtimeError m) => .error (500, sanitize_error_message m)
    | .error (.fatal m) => .error (500, sanitize_error_message m)

end FlowPilot

namespace FlowPilot

/-! ## Concrete evaluation fixtures

A two-attribute travel manifest (a boolean persona attribute with a
default and a required date resource attribute), a standard action set,
and oracle instantiations used by the witnesses below. -/
def comma_sep (l : List String) : String :=
  String.intercalate ", " l

def travel_manifest : PolicyManifest :=
  ⟨"travel", "travel.authz",
   [⟨"consent", "boolean", "persona", some (.bool false), false⟩,
    ⟨"departure_date", "date", "resource", none, true⟩]⟩

def fix_policies : List (String × PolicyManifest) := [("travel", travel_manifest)]

def fix_actions : List String := ["create", "read", "update", "delete", "execute"]

/-- Persona-by-id oracle finding nothing. -/
def persona_oracle_empty : PersonaOracle := fun _ => .ok []

/-- Persona-by-user-and-title oracle returning an active persona. -/
def persona_by_title_active : PersonaByTitleOracle := fun _ _ =>
  .ok [("status", .str "active"), ("valid_from", .str "2020-01-01"),
       ("valid_till", .str "2030-01-01")]

/-- A delegation collaborator that always fails (timeout). -/
def delegation_failing : DelegationOracle := fun _ _ _ _ => .error "delegation-api timeout"

/-- A rule engine that denies every input. -/
def opa_deny_all : List (String × JVal) → Bool := fun _ => false

/-- A rule engine reporting a fixed reason list. -/
def opa_reasons_fixed : List (String × JVal) → List String :=
  fun _ => ["travel.deny.no_delegation"]

def C2ctx : List (String × JVal) :=
  [("policy_hint", .str "travel"),
   ("principal", .obj [("id", .str "U2"), ("persona", .str "travel-agent")])]

/-- An evaluate request whose resource omits the required
`departure_date` attribute. -/
def C2req : List (String × JVal) :=
  [("subject", .obj [("type", .str "user"), ("id", .str "U2"),
      ("properties", .obj [("persona", .str "travel-agent")])]),
   ("action", .obj [("name", .str "read")]),
   ("resource", .obj [("type", .str "trip"), ("id", .str "T1"),
      ("properties", .obj [])]),
   ("context", .obj C2ctx)]

def C4ctx : List (String × JVal) :=
  [("policy_hint", .str "nursing"),
   ("principal", .obj [("id", .str "U2"), ("persona", .str "travel-agent")])]

/-- An evaluate request naming a policy that is not loaded. -/
def C4req : List (String × JVal) :=
  [("subject", .obj [("type", .str "user"), ("id", .str "U2"),
      ("properties", .obj [("persona", .str "travel-agent")])]),
   ("action", .obj [("name", .str "read")]),
   ("resource", .obj [("type", .str "trip"), ("id", .str "T1")]),
   ("context", .obj C4ctx)]

def C5ctx : List (String × JVal) :=
  [("policy_hint", .str "travel"),
   ("principal", .obj [("id", .str "U2"), ("persona", .str "travel-agent")])]

/-- An evaluate request with a distinct owner, so that the delegation
lookup runs (and fails, with `delegation_failing`). -/
def C5req : List (String × JVal) :=
  [("subject", .obj [("type", .str "user"), ("id", .str "U2"),
      ("properties", .obj [("persona", .str "travel-agent")])]),
   ("action", .obj [("name", .str "execute")]),
   ("resource", .obj [("type", .str "workflow"), ("id", .str "W1"),
      ("properties", .obj [("workflow_id", .str "W1"), ("departure_date", .str "2030-01-02"),
        ("owner", .obj [("id", .str "U1")])])]),
   ("context", .obj C5ctx)]

def C5resource : List (String × JVal) :=
  [("type", .str "workflow"), ("id", .str "W1"),
   ("properties", .obj
     [("workflow_id", .str "W1"), ("departure_date", .str "2030-01-02T00:00:00Z"),
      ("owner", .obj [("id", .str "U1")])])]

def C5context : List (String × JVal) :=
  [("delegation", .obj [("delegation_chain", .arr []), ("delegated_actions", .arr [])]),
   ("principal", .obj
     [("id", .str "U2"), ("persona", .str "travel-agent"),
      ("persona_status", .str "active"), ("persona_valid_from", .str "2020-01-01"),
      ("persona_valid_till", .str "2030-01-01")])]

def C3_db : List Edge := [⟨"A", "B", none, ["read", "update"], 100, 0, none⟩]

def C9_db : List Edge := [⟨"alice", "carol", none, ["read", "execute"], 100, 0, none⟩]

def C8_schema : PersonaSchema :=
  [("circle", ⟨"string", true, none⟩),
   ("seat_preference", ⟨"string", false, some (.str "aisle")⟩),
   ("consent", ⟨"boolean", false, some (.bool false)⟩)]

def C8_custom : List (String × JVal) :=
  [("circle", .str "family"), ("seat_preference", .str "window"), ("consent", .str "yes")]

def C8_persona : Persona :=
  ⟨"u1_traveler_family", "u1", "traveler", .str "family", [], 1000, 1365, "active",
   1000, 1000, false, .int 0, .int 0, .int 0⟩

def C8_row : PersonaRow :=
  ⟨"u1_traveler_family", "u1", "traveler", .str "family", [], 1000, 1365, "active",
   1000, 1000, 0, .int 0, .int 0, .int 0⟩

def C6_authz : List (String × JVal) :=
  [("decision", .str "deny"), ("reason_codes", .arr [.str "travel.deny.no_delegation"])]

def C6_pu : List (String × JVal) := [("type", .str "user"), ("id", .str "u1")]

end FlowPilot

namespace FlowPilot

/-! ## Helper lemmas -/


lemma head?_append_left {α : Type} {l : List α} (l2 : List α) {a : α}
    (h : l.head? = some a) : (l ++ l2).head? = some a := by
  cases l with
  | nil => simp at h
  | cons x xs => simpa using h

lemma delegation_block_of_failing_oracle (dg : DelegationOracle)
    (hdg : ∀ o p w a, ∃ e, dg o p w a = Except.error e)
    (req : List (String × JVal)) (pid : JVal) (oid wid : Option JVal) :
    delegation_block dg req pid oid wid =
      [("delegation_chain", JVal.arr []), ("delegated_actions", JVal.arr [])] := by
  unfold delegation_block
  cases oid with
  | none => rfl
  | some o =>
      simp only
      split
      · cases hact : action_name_for_delegation req with
        | none => rfl
        | some a =>
            obtain ⟨e, he⟩ := hdg (pyStr o) (pyStr pid)
              (match wid with
               | some w => if pyTruthy w then some (pyStr w) else none
               | none => none) a
            simp only [he]
      · rfl

lemma chains_extend (db : List Edge) (now : Nat) (wf : Option String) :
    ∀ (path : List String) (es : List Edge) (a b : String) (e : Edge),
    chains db now wf path es = true → path.getLast? = some a →
    e ∈ outgoing_live_edges db now wf a → e.delegate_id = b →
    chains db now wf (path ++ [b]) (es ++ [e]) = true := by
  intro path
  induction path with
  | nil => intro es a b e h; simp [chains] at h
  | cons x xs ih =>
      intro es a b e h hlast hmem hdel
      cases xs with
      | nil =>
          cases es with
          | nil =>
              simp at hlast
              subst hlast
              simp [chains, hmem, hdel]
          | cons e0 es0 => simp [chains] at h
      | cons y ys =>
          cases es with
          | nil => simp [chains] at h
          | cons e0 es0 =>
              simp only [chains, Bool.and_eq_true, decide_eq_true_eq] at h
              obtain ⟨⟨hm0, hd0⟩, hrest⟩ := h
              have hlast2 : (y :: ys).getLast? = some a := by
                simpa [List.getLast?_cons_cons] using hlast
              have := ih es0 a b e hrest hlast2 hmem hdel
              simp only [List.cons_append, chains, Bool.and_eq_true, decide_eq_true_eq]
              exact ⟨⟨hm0, hd0⟩, this⟩

lemma py_foldl_max_mem (key : PathResult → Nat × Int) :
    ∀ (xs : List PathResult) (b : PathResult),
    xs.foldl (fun best y => if key_lt (key best) (key y) then y else best) b = b ∨
      xs.foldl (fun best y => if key_lt (key best) (key y) then y else best) b ∈ xs := by
  intro xs
  induction xs with
  | nil => intro b; left; rfl
  | cons z zs ih =>
      intro b
      simp only [List.foldl_cons]
      by_cases hk : key_lt (key b) (key z) = true
      · simp only [hk, if_true]
        rcases ih z with h | h
        · right; rw [h]; exact List.mem_cons_self _ _
        · right; exact List.mem_cons_of_mem _ h
      · simp only [hk, if_false]
        rcases ih b with h | h
        · left; exact h
        · right; exact List.mem_cons_of_mem _ h

lemma py_max_by_mem (key : PathResult → Nat × Int) (l : List PathResult) (r : PathResult)
    (h : py_max_by key l = some r) : r ∈ l := by
  cases l with
  | nil => simp [py_max_by] at h
  | cons x xs =>
      simp only [py_max_by, Option.some.injEq] at h
      subst h
      rcases py_foldl_max_mem key xs x with h | h
      · rw [h]; exact List.mem_cons_self _ _
      · exact List.mem_cons_of_mem _ h

lemma bfs_edge_step_inv (db : List Edge) (now : Nat) (wf : Option String)
    (src delegate current_id : String) (max_depth : Nat)
    (path : List String) (path_actions : Finset String)
    (hhead : path.head? = some src) (hlast : path.getLast? = some current_id)
    (hlen : path.length ≤ max_depth)
    (es : List Edge) (hchain : chains db now wf path es = true)
    (hacts : path_actions = es.foldl (fun acc e => acc ∩ e.scope.toFinset)
      ({"read", "execute"} : Finset String))
    (acc : List (String × List String × Finset String) × List String × List PathResult)
    (row : Edge) (hrow : row ∈ outgoing_live_edges db now wf current_id)
    (hq : ∀ q ∈ acc.1, bfs_queue_inv db now wf src q)
    (hv : ∀ r ∈ acc.2.2, bfs_valid_inv db now wf src delegate max_depth r) :
    (∀ q ∈ (bfs_edge_step delegate path path_actions acc row).1, bfs_queue_inv db now wf src q) ∧
    (∀ r ∈ (bfs_edge_step delegate path path_actions acc row).2.2,
       bfs_valid_inv db now wf src delegate max_depth r) := by
  obtain ⟨queue, visited, valid_paths⟩ := acc
  have hpathne : path ≠ [] := by
    intro hcontra; rw [hcontra] at hhead; simp at hhead
  unfold bfs_edge_step
  dsimp only
  by_cases h0 : path_actions ∩ row.scope.toFinset = ∅
  · rw [if_pos h0]
    exact ⟨hq, hv⟩
  · rw [if_neg h0]
    by_cases h1 : row.delegate_id = delegate
    · rw [if_pos h1]
      refine ⟨hq, ?_⟩
      intro r hr
      simp only [List.mem_append, List.mem_singleton] at hr
      rcases hr with hr | hr
      · exact hv r hr
      · subst hr
        refine ⟨?_, ?_, ?_, ?_⟩
        · exact head?_append_left [row.delegate_id] hhead
        · rw [List.getLast?_concat]; rw [h1]
        · simpa [List.length_append] using Nat.succ_le_succ hlen
        · refine ⟨es ++ [row], ?_, ?_⟩
          · exact chains_extend db now wf path es current_id row.delegate_id row hchain hlast hrow rfl
          · simp [List.foldl_append, hacts]
    · rw [if_neg h1]
      by_cases h2 : row.delegate_id ∉ visited
      · rw [if_pos h2]
        refine ⟨?_, hv⟩
        intro q hqmem
        simp only [List.mem_append, List.mem_singleton] at hqmem
        rcases hqmem with hqmem | hqmem
        · exact hq q hqmem
        · subst hqmem
          refine ⟨?_, ?_, ?_⟩
          · exact head?_append_left [row.delegate_id] hhead
          · exact List.getLast?_concat path
          · refine ⟨es ++ [row], ?_, ?_⟩
            · exact chains_extend db now wf path es current_id row.delegate_id row hchain hlast hrow rfl
            · simp [List.foldl_append, hacts]
      · rw [if_neg h2]
        exact ⟨hq, hv⟩

lemma bfs_foldl_inv (db : List Edge) (now : Nat) (wf : Option String)
    (src delegate current_id : String) (max_depth : Nat)
    (path : List String) (path_actions : Finset String)
    (hhead : path.head? = some src) (hlast : path.getLast? = some current_id)
    (hlen : path.length ≤ max_depth)
    (es : List Edge) (hchain : chains db now wf path es = true)
    (hacts : path_actions = es.foldl (fun acc e => acc ∩ e.scope.toFinset)
      ({"read", "execute"} : Finset String)) :
    ∀ (rows : List Edge), (∀ row ∈ rows, row ∈ outgoing_live_edges db now wf current_id) →
    ∀ (acc : List (String × List String × Finset String) × List String × List PathResult),
    (∀ q ∈ acc.1, bfs_queue_inv db now wf src q) →
    (∀ r ∈ acc.2.2, bfs_valid_inv db now wf src delegate max_depth r) →
    (∀ q ∈ (rows.foldl (bfs_edge_step delegate path path_actions) acc).1,
       bfs_queue_inv db now wf src q) ∧
    (∀ r ∈ (rows.foldl (bfs_edge_step delegate path path_actions) acc).2.2,
       bfs_valid_inv db now wf src delegate max_depth r) := by
  intro rows
  induction rows with
  | nil => intro _ acc hq hv; exact ⟨hq, hv⟩
  | cons row rows ih =>
      intro hmem acc hq hv
      simp only [List.foldl_cons]
      have hrow : row ∈ outgoing_live_edges db now wf current_id :=
        hmem row (List.mem_cons_self _ _)
      have hstep := bfs_edge_step_inv db now wf src delegate current_id max_depth path
        path_actions hhead hlast hlen es hchain hacts acc row hrow hq hv
      exact ih (fun r hr => hmem r (List.mem_cons_of_mem _ hr)) _ hstep.1 hstep.2

lemma bfs_loop_inv (db : List Edge) (now : Nat) (wf : Option String)
    (src delegate : String) (max_depth : Nat) :
    ∀ (fuel : Nat) (queue : List (String × List String × Finset String))
      (visited : List String) (valid : List PathResult),
    (∀ q ∈ queue, bfs_queue_inv db now wf src q) →
    (∀ r ∈ valid, bfs_valid_inv db now wf src delegate max_depth r) →
    ∀ r ∈ find_delegation_path_loop db now wf delegate max_depth fuel queue visited valid,
      bfs_valid_inv db now wf src delegate max_depth r := by
  intro fuel
  induction fuel with
  | zero =>
      intro queue visited valid hq hv r hr
      simp only [find_delegation_path_loop] at hr
      exact hv r hr
  | succ n ih =>
      intro queue visited valid hq hv r hr
      cases queue with
      | nil =>
          simp only [find_delegation_path_loop] at hr
          exact hv r hr
      | cons item rest =>
          obtain ⟨current_id, path, path_actions⟩ := item
          simp only [find_delegation_path_loop] at hr
          by_cases hlen : path.length ≤ max_depth
          · rw [if_pos hlen] at hr
            obtain ⟨hhead, hlast, es, hchain, hacts⟩ :=
              hq (current_id, path, path_actions) (List.mem_cons_self _ _)
            have hrest : ∀ q ∈ rest, bfs_queue_inv db now wf src q := by
              intro q hmem; exact hq q (List.mem_cons_of_mem _ hmem)
            have hstep := bfs_foldl_inv db now wf src delegate current_id max_depth path
              path_actions hhead hlast hlen es hchain hacts
              (outgoing_live_edges db now wf current_id) (fun _ h => h)
              (rest, visited, valid) hrest hv
            exact ih _ _ _ hstep.1 hstep.2 r hr
          · rw [if_neg hlen] at hr
            exact hv r hr
lemma find?_append_right {α : Type} (p : α → Bool) (l l2 : List α)
    (h : ∀ e ∈ l, p e = false) : (l ++ l2).find? p = l2.find? p := by
  induction l with
  | nil => simp
  | cons a rest ih =>
      have ha : p a = false := h a (by simp)
      simp only [List.cons_append, List.find?, ha]
      exact ih (fun e he => h e (by simp [he]))

lemma py_list_or_empty_arr (xs : List JVal) : py_list_or_empty (.arr xs) = .ok xs := by
  cases xs <;> rfl

end FlowPilot

namespace FlowPilot

/-! ## The claims -/

/-! ## The claims -/

/-- Claim C1: `DelegationService.create_delegation` tuple-unpacks the
value `insert_edge` returns, but `insert_edge` returns a single
seven-key edge dict (no `was_created` component), so the unpack raises
`ValueError: too many values to unpack (expected 2)` on every call that
reaches it — here on a fresh valid insert (the edge row itself is
committed first).  The conflict semantics inside `insert_edge` (no-op
when the new scope is a subset and the expiry not later; otherwise
scope union and max expiry) does hold of the dict it returns. -/
theorem C1_insert_returns_dict_not_pair :
    (create_delegation ["read", "execute"] [] 0 "alice" "bob" 7 none (some ["execute"]) none).1
      = .error "too many values to unpack (expected 2)" ∧
    (create_delegation ["read", "execute"] [] 0 "alice" "bob" 7 none (some ["execute"]) none).2
      = [⟨"alice", "bob", none, ["execute"], 7, 0, none⟩] ∧
    (edge_to_dict ⟨"alice", "bob", none, ["execute"], 7, 0, none⟩).map Prod.fst
      = ["principal_id", "delegate_id", "workflow_id", "scope", "expires_at",
         "created_at", "revoked_at"] ∧
    insert_edge [⟨"alice", "bob", none, ["read", "execute"], 100, 0, none⟩] 0
        "alice" "bob" 50 none (some ["read"])
      = (.ok (edge_to_dict ⟨"alice", "bob", none, ["read", "execute"], 100, 0, none⟩),
         [⟨"alice", "bob", none, ["read", "execute"], 100, 0, none⟩]) ∧
    insert_edge [⟨"alice", "bob", none, ["read", "execute"], 100, 0, none⟩] 0
        "alice" "bob" 200 none (some ["update"])
      = (.ok (edge_to_dict ⟨"alice", "bob", none, ["execute", "read", "update"], 200, 0, none⟩),
         [⟨"alice", "bob", none, ["execute", "read", "update"], 200, 0, none⟩]) := by
  exact ⟨rfl, rfl, rfl, rfl, rfl⟩

/-- Claim C2: once a manifest is selected, a malformed subject, action,
or resource makes `evaluate_authorization_request` return a deny with
the matching reason code — `authz.invalid_subject`,
`authz.invalid_action`, or `authz.missing_required_attributes` — and
never an allow; the deny is produced before the rule engine is
consulted (the conclusion does not depend on the `opa_allow` /
`opa_reasons` oracles). -/
theorem C2_malformed_request_fail_closed (policies : List (String × PolicyManifest))
    (aa : List String) (f1 : PersonaOracle) (f2 : PersonaByTitleOracle)
    (dg : DelegationOracle)
    (oa : List (String × JVal) → Bool) (orr : List (String × JVal) → List String)
    (req ctxkvs : List (String × JVal)) (m : PolicyManifest)
    (hctx : jget req "context" = some (.obj ctxkvs))
    (hsel : select_policy policies (jget ctxkvs "policy_hint") = .ok m) :
    (∀ e, build_opa_subject req = .error (.valueError e) →
       evaluate_authorization_request policies aa f1 f2 dg oa orr req
         = .ok ⟨"deny", ["authz.invalid_subject"], [.obj [("message", .str e)]]⟩) ∧
    (∀ subject e, build_opa_subject req = .ok subject →
       build_opa_action aa req = .error (.valueError e) →
       evaluate_authorization_request policies aa f1 f2 dg oa orr req
         = .ok ⟨"deny", ["authz.invalid_action"], [.obj [("message", .str e)]]⟩) ∧
    (∀ subject action e, build_opa_subject req = .ok subject →
       build_opa_action aa req = .ok action →
       build_opa_resource f1 f2 req m.persona_attributes m.resource_attributes
         = .error (.valueError e) →
       evaluate_authorization_request policies aa f1 f2 dg oa orr req
         = .ok ⟨"deny", ["authz.missing_required_attributes"], [.obj [("message", .str e)]]⟩) := by
  refine ⟨?_, ?_, ?_⟩
  · intro e hs
    unfold evaluate_authorization_request
    simp only [hctx, hsel, hs, bind, Except.bind, pure, Except.pure]
  · intro subject e hs ha
    unfold evaluate_authorization_request
    simp only [hctx, hsel, hs, ha, bind, Except.bind, pure, Except.pure]
  · intro subject action e hs ha hr
    unfold evaluate_authorization_request
    simp only [hctx, hsel, hs, ha, hr, bind, Except.bind, pure, Except.pure]

theorem C2_malformed_request_fail_closed_witness :
    evaluate_authorization_request fix_policies fix_actions persona_oracle_empty
        persona_by_title_active delegation_failing opa_deny_all opa_reasons_fixed C2req
      = .ok ⟨"deny", ["authz.missing_required_attributes"],
          [.obj [("message", .str "Missing required resource attributes: departure_date")]]⟩ :=
  (C2_malformed_request_fail_closed fix_policies fix_actions persona_oracle_empty
      persona_by_title_active delegation_failing opa_deny_all opa_reasons_fixed
      C2req C2ctx travel_manifest rfl rfl).2.2
    [("type", .str "user"), ("id", .str "U2"), ("persona", .str "travel-agent")]
    [("name", .str "read")]
    "Missing required resource attributes: departure_date" rfl rfl rfl

/-- Claim C3 (amended): every path result of `find_delegation_path`
starts at the principal, ends at the delegate, and spans at most
`max_depth + 1` principals; its `delegated_actions` is the per-edge
scope intersection along a chain of live edges — but seeded with the
initial action set `{read, execute}`, so it equals
`{read, execute} ∩ ⋂ edge.scope` rather than the plain `⋂ edge.scope`
of the specification. -/
theorem C3_find_path_properties (db : List Edge) (now : Nat) (principal_id delegate_id : String)
    (workflow_id : Option String) (max_depth : Nat) (r : PathResult)
    (h : find_delegation_path db now principal_id delegate_id workflow_id max_depth = some r) :
    r.path.head? = some principal_id ∧ r.path.getLast? = some delegate_id ∧
    r.path.length ≤ max_depth + 1 ∧
    ∃ es : List Edge, chains db now workflow_id r.path es = true ∧
      r.delegated_actions = es.foldl (fun acc e => acc ∩ e.scope.toFinset)
        ({"read", "execute"} : Finset String) := by
  unfold find_delegation_path at h
  by_cases hpd : principal_id = delegate_id
  · rw [if_pos hpd] at h
    cases h
    refine ⟨rfl, by simp [hpd], by simp, [], by simp [chains], by simp⟩
  · rw [if_neg hpd] at h
    have hr := py_max_by_mem path_strength _ r h
    have hinit : ∀ q ∈ [(principal_id, [principal_id],
        ({"read", "execute"} : Finset String))], bfs_queue_inv db now workflow_id principal_id q := by
      intro q hq
      simp only [List.mem_singleton] at hq
      subst hq
      exact ⟨rfl, rfl, [], by simp [chains], by simp⟩
    exact bfs_loop_inv db now workflow_id principal_id delegate_id max_depth
      (db.length + 1) _ [principal_id] [] hinit (by intro r hr; simp at hr) r hr

theorem C3_find_path_properties_witness :
    (⟨["A", "B"], ({"read"} : Finset String)⟩ : PathResult).path.head? = some "A" ∧
    (⟨["A", "B"], ({"read"} : Finset String)⟩ : PathResult).path.getLast? = some "B" ∧
    (⟨["A", "B"], ({"read"} : Finset String)⟩ : PathResult).path.length ≤ 5 + 1 ∧
    ∃ es : List Edge,
      chains C3_db 0 none (⟨["A", "B"], ({"read"} : Finset String)⟩ : PathResult).path es = true ∧
      (⟨["A", "B"], ({"read"} : Finset String)⟩ : PathResult).delegated_actions
        = es.foldl (fun acc e => acc ∩ e.scope.toFinset) ({"read", "execute"} : Finset String) :=
  C3_find_path_properties C3_db 0 "A" "B" none 5 ⟨["A", "B"], ({"read"} : Finset String)⟩
    (by decide)

/-- On a single live edge `A → B` of scope `{read, update}`, the path
search returns `delegated_actions = {read}` — the seed `{read, execute}`
intersected with the edge scope — while the specification's
`⋂ edge.scope for edge in path_edges(p)` is `{read, update}`: the
`update` action the edge grants is lost and no `execute` ever
survives the seed. -/
theorem C3_scope_seed_counterexample :
    find_delegation_path C3_db 0 "A" "B" none 5
      = some ⟨["A", "B"], ({"read"} : Finset String)⟩ ∧
    chains C3_db 0 none ["A", "B"] C3_db = true ∧
    path_edges_scope_intersection C3_db = ({"read", "update"} : Finset String) ∧
    ({"read"} : Finset String) ≠ ({"read", "update"} : Finset String) := by
  exact ⟨by decide, by decide, by decide, by decide⟩

/-- Claim C4 (amended): a missing or unknown `context.policy_hint` does
not produce a deny decision carrying `authz.invalid_policy` — no such
reason code exists in the engine.  `select_policy` raises and
`evaluate_authorization_request` re-raises a `ValueError`
(`Policy selection failed: ...`), which the evaluate endpoint maps to
an HTTP 400 error response. -/
theorem C4_policy_hint_error (policies : List (String × PolicyManifest)) (aa : List String)
    (f1 : PersonaOracle) (f2 : PersonaByTitleOracle) (dg : DelegationOracle)
    (oa : List (String × JVal) → Bool) (orr : List (String × JVal) → List String)
    (req ctxkvs : List (String × JVal)) (e : String)
    (hctx : jget req "context" = some (.obj ctxkvs))
    (hsel : select_policy policies (jget ctxkvs "policy_hint") = .error e) :
    evaluate_authorization_request policies aa f1 f2 dg oa orr req
      = .error (.valueError s!"Policy selection failed: {e}") ∧
    post_evaluate policies aa f1 f2 dg oa orr req
      = .error (400, sanitize_error_message s!"Policy selection failed: {e}") := by
  have h1 : evaluate_authorization_request policies aa f1 f2 dg oa orr req
      = .error (.valueError s!"Policy selection failed: {e}") := by
    unfold evaluate_authorization_request
    simp only [hctx, hsel, bind, Except.bind, pure, Except.pure]
  exact ⟨h1, by unfold post_evaluate; simp only [h1]⟩

theorem C4_policy_hint_error_witness :
    evaluate_authorization_request fix_policies fix_actions persona_oracle_empty
        persona_by_title_active delegation_failing opa_deny_all opa_reasons_fixed C4req
      = .error (.valueError
          "Policy selection failed: Policy nursing not found. Available policies: travel") ∧
    post_evaluate fix_policies fix_actions persona_oracle_empty
        persona_by_title_active delegation_failing opa_deny_all opa_reasons_fixed C4req
      = .error (400,
          "Policy selection failed: Policy nursing not found. Available policies: travel") :=
  C4_policy_hint_error fix_policies fix_actions persona_oracle_empty
    persona_by_title_active delegation_failing opa_deny_all opa_reasons_fixed
    C4req C4ctx "Policy nursing not found. Available policies: travel" rfl rfl

/-- An unknown `policy_hint` yields an HTTP 400 `ValueError` response,
not an AuthZEN deny decision: the engine result is an exception, so no
`{decision: deny, reason_codes: [authz.invalid_policy]}` body exists
(the string `authz.invalid_policy` appears nowhere in the engine). -/
theorem C4_invalid_policy_counterexample :
    evaluate_authorization_request fix_policies fix_actions persona_oracle_empty
        persona_by_title_active delegation_failing opa_deny_all opa_reasons_fixed C4req
      = .error (.valueError
          "Policy selection failed: Policy nursing not found. Available policies: travel") ∧
    post_evaluate fix_policies fix_actions persona_oracle_empty
        persona_by_title_active delegation_failing opa_deny_all opa_reasons_fixed C4req
      = .error (400,
          "Policy selection failed: Policy nursing not found. Available policies: travel") ∧
    (evaluate_authorization_request fix_policies fix_actions persona_oracle_empty
        persona_by_title_active delegation_failing opa_deny_all opa_reasons_fixed C4req).toOption
      = none :=
  ⟨rfl, rfl, rfl⟩

/-- Claim C5: when every builder succeeds but the delegation
collaborator fails on every input, `build_opa_context` still succeeds
with the empty delegation block (`{chain: [], actions: []}`), and the
engine's decision is exactly what the rule engine returns on the built
input — the failure neither short-circuits to a deny nor raises. -/
theorem C5_delegation_failure_no_short_circuit (policies : List (String × PolicyManifest))
    (aa : List String) (f1 : PersonaOracle) (f2 : PersonaByTitleOracle)
    (dg : DelegationOracle)
    (oa : List (String × JVal) → Bool) (orr : List (String × JVal) → List String)
    (req ctxkvs : List (String × JVal)) (m : PolicyManifest)
    (subject action resource context : List (String × JVal))
    (hctx : jget req "context" = some (.obj ctxkvs))
    (hsel : select_policy policies (jget ctxkvs "policy_hint") = .ok m)
    (hs : build_opa_subject req = .ok subject)
    (ha : build_opa_action aa req = .ok action)
    (hr : build_opa_resource f1 f2 req m.persona_attributes m.resource_attributes = .ok resource)
    (hdg : ∀ o p w a, ∃ e, dg o p w a = Except.error e)
    (hc : build_opa_context f2 dg req = .ok context) :
    jget context "delegation"
      = some (.obj [("delegation_chain", JVal.arr []), ("delegated_actions", JVal.arr [])]) ∧
    evaluate_authorization_request policies aa f1 f2 dg oa orr req =
      .ok ⟨if oa [("subject", .obj subject), ("action", .obj action),
              ("resource", .obj resource), ("context", .obj context)] then "allow" else "deny",
           orr [("subject", .obj subject), ("action", .obj action),
              ("resource", .obj resource), ("context", .obj context)], []⟩ := by
  constructor
  · unfold build_opa_context at hc
    cases hcep : context_extract_principal f2 req with
    | error err => rw [hcep] at hc; simp [bind, Except.bind] at hc
    | ok pp =>
        cases hceo : context_extract_owner req with
        | error err => rw [hcep, hceo] at hc; simp [bind, Except.bind] at hc
        | ok ow =>
            rw [hcep, hceo] at hc
            simp only [bind, Except.bind, pure, Except.pure] at hc
            cases hc
            simp [jget, delegation_block_of_failing_oracle dg hdg]
  · unfold evaluate_authorization_request
    simp only [hctx, hsel, hs, ha, hr, hc, bind, Except.bind, pure, Except.pure]

theorem C5_delegation_failure_no_short_circuit_witness :
    jget C5context "delegation"
      = some (.obj [("delegation_chain", JVal.arr []), ("delegated_actions", JVal.arr [])]) ∧
    evaluate_authorization_request fix_policies fix_actions persona_oracle_empty
        persona_by_title_active delegation_failing opa_deny_all opa_reasons_fixed C5req
      = .ok ⟨"deny", ["travel.deny.no_delegation"], []⟩ :=
  C5_delegation_failure_no_short_circuit fix_policies fix_actions persona_oracle_empty
    persona_by_title_active delegation_failing opa_deny_all opa_reasons_fixed
    C5req C5ctx travel_manifest
    [("type", .str "user"), ("id", .str "U2"), ("persona", .str "travel-agent")]
    [("name", .str "execute")] C5resource C5context
    rfl rfl rfl rfl rfl (fun _ _ _ _ => ⟨"delegation-api timeout", rfl⟩) rfl

/-- Claim C6 (amended): a pre-flight authorization result other than
`allow` does not produce a run record — the handler raises
`HTTPException(403)` with the reason codes in its detail string; only
the second half of the claim holds as written: an HTTP 403 from the
item-listing call yields a run record with empty `results` and an
`error` object populated from the parsed denial body. -/
theorem C6_denied_runs (authz_result : List (String × JVal)) (workflow_id : String)
    (pu : List (String × JVal)) (dry_run : Bool) (run_id : String)
    (listing : ListItemsResult) (iresp : String → HttpResp)
    (hwf : ¬ py_strip workflow_id = "") :
    (jget authz_result "decision" ≠ some (.str "allow") →
      handle_post_workflow_runs authz_result workflow_id pu dry_run run_id listing iresp
        = .error (403, "Workflow execution not authorized: "
            ++ pyStr ((jget authz_result "reason_codes").getD (.arr [])))) ∧
    (∀ wfid status text parsed err,
      require_non_empty_string wfid "workflow_id" = .ok (py_strip wfid) →
      optTruthy (jget pu "id") = true →
      status = 403 →
      listing_denied_error parsed = .ok err →
      execute_workflow_run run_id wfid pu dry_run (.httpError status text parsed) iresp
        = .ok ⟨run_id, wfid, (jget pu "id").getD (.str ""), pu, dry_run, [], some err⟩) := by
  constructor
  · intro hdec
    unfold handle_post_workflow_runs
    rw [if_neg hwf, if_pos hdec]
  · intro wfid status text parsed err hreq hpid h403 herr
    unfold execute_workflow_run
    simp only [hreq, hpid, Bool.not_true]
    rw [if_neg (show ¬ (false = true) by simp)]
    dsimp only
    rw [if_pos (Or.inl h403), herr]

theorem C6_denied_runs_witness :
    handle_post_workflow_runs C6_authz "wf-2" C6_pu true "run-2" (.ok [])
        (fun _ => .netError "unused")
      = .error (403, "Workflow execution not authorized: "
          ++ pyStr ((jget C6_authz "reason_codes").getD (.arr []))) :=
  (C6_denied_runs C6_authz "wf-2" C6_pu true "run-2" (.ok []) (fun _ => .netError "unused")
    (by decide)).1 (by decide)

/-- A denied pre-flight check ends in an HTTP 403 error response (no
run record), while a 403 on the listing call produces the run record
with empty results and a populated error object that the claim
describes for both situations. -/
theorem C6_preflight_deny_counterexample :
    handle_post_workflow_runs C6_authz "wf-1" C6_pu false "run-1" (.ok [])
        (fun _ => .netError "unused")
      = .error (403, "Workflow execution not authorized: [...]") ∧
    execute_workflow_run "run-1" "wf-1" C6_pu false (.httpError 403 "" none)
        (fun _ => .netError "unused")
      = .ok ⟨"run-1", "wf-1", .str "u1", C6_pu, false, [],
          some ⟨.str "Principal does not have read access to this workflow",
                .arr [.str "workflow_access_denied"]⟩⟩ :=
  ⟨rfl, rfl⟩

/-- Claim C7 (amended): each item the run loop reaches yields exactly
one result record, classified by the domain response — 2xx is
`completed`/`allow`, 403 is `completed`/`deny` with reason codes and
advice from the body, any other status is `error`/`deny` with
`agent_runner.item_execution_failed` — except that a transport error
(`requests.RequestException`) is caught neither by the item executor
(which catches only `RuntimeError`) nor by the run loop (which catches
only `ValueError`), so it aborts the whole run instead of producing an
item result (see the counterexample). -/
theorem C7_item_classification (workflow_id workflow_item_id : String)
    (pu : List (String × JVal)) (iresp : String → HttpResp)
    (hw : ¬ py_strip workflow_id = "") (hi : ¬ py_strip workflow_item_id = "")
    (hp : optTruthy (jget pu "id") = true) :
    (∀ status text v, 200 ≤ status → status < 300 →
      execute_workflow_item workflow_id workflow_item_id pu (.resp status text (some v))
        = .ok ⟨200, "completed", "allow", [], [], some v⟩) ∧
    (∀ text kvs dkvs rcs adv, kvs ≠ [] →
      starts_with_chars [open_brace_char] (py_strip text).data = true →
      jget kvs "detail" = some (.obj dkvs) →
      jget dkvs "reason_codes" = some (.arr rcs) →
      jget dkvs "advice" = some (.arr adv) →
      execute_workflow_item workflow_id workflow_item_id pu (.resp 403 text (some (.obj kvs)))
        = .ok ⟨403, "completed", "deny", rcs,
            (if adv ≠ [] then adv else [access_denied_advice]), some (.obj kvs)⟩) ∧
    (∀ status text, ¬ (200 ≤ status ∧ status < 300) → status ≠ 403 →
      execute_workflow_item workflow_id workflow_item_id pu (.resp status text none)
        = .ok ⟨status, "error", "deny", [.str "agent_runner.item_execution_failed"],
            [.obj [("type", .str "error"),
              ("message", .str ("HTTP POST non-2xx: http=" ++ toString status
                ++ " body=" ++ text))]], none⟩) ∧
    (∀ items : List WorkflowItem,
      (∀ i ∈ items,
        (∃ r, execute_workflow_item workflow_id i.workflow_item_id pu
            (iresp i.workflow_item_id) = .ok r) ∨
        (∃ m, execute_workflow_item workflow_id i.workflow_item_id pu
            (iresp i.workflow_item_id) = .error (.valueError m))) →
      ∃ entries, run_items workflow_id pu iresp items = .ok entries ∧
        entries.length = items.length) := by
  have hreqw : require_non_empty_string workflow_id "workflow_id" = .ok (py_strip workflow_id) := by
    unfold require_non_empty_string
    rw [if_neg hw]
  have hreqi : require_non_empty_string workflow_item_id "workflow_item_id"
      = .ok (py_strip workflow_item_id) := by
    unfold require_non_empty_string
    rw [if_neg hi]
  refine ⟨?_, ?_, ?_, ?_⟩
  · intro status text v h1 h2
    unfold execute_workflow_item
    simp only [hreqw, hreqi, hp, Bool.not_true]
    rw [if_neg (show ¬ (false = true) by simp)]
    unfold post_execute_workflow_item
    dsimp only
    rw [if_pos ⟨h1, h2⟩]
    dsimp only
    rw [if_pos (show 200 ≤ 200 ∧ 200 < 300 by omega)]
  · intro text kvs dkvs rcs adv hk htext hdet hrc hadv
    unfold execute_workflow_item
    simp only [hreqw, hreqi, hp, Bool.not_true]
    rw [if_neg (show ¬ (false = true) by simp)]
    unfold post_execute_workflow_item
    dsimp only
    have hkt : pyTruthy (.obj kvs) = true := by
      cases kvs with
      | nil => exact absurd rfl hk
      | cons a as => rfl
    simp [htext, hkt, hdet, hrc, hadv, py_list_or_empty_arr]
  · intro status text hno h403
    unfold execute_workflow_item
    simp only [hreqw, hreqi, hp, Bool.not_true]
    rw [if_neg (show ¬ (false = true) by simp)]
    unfold post_execute_workflow_item
    dsimp only
    simp [hno, h403]
  · intro items hall
    induction items with
    | nil => exact ⟨[], rfl, rfl⟩
    | cons i rest ih =>
        obtain ⟨entries, hent, hlen⟩ := ih (fun j hj => hall j (by simp [hj]))
        rcases hall i (by simp) with ⟨r, hr⟩ | ⟨m, hm⟩
        · refine ⟨⟨i.workflow_item_id, i.kind, r.status, r.outcome, r.reason_codes,
            r.advice⟩ :: entries, ?_, by simp [hlen]⟩
          unfold run_items
          rw [hr, hent]
        · refine ⟨⟨i.workflow_item_id, i.kind, "error", "deny",
            [.str "agent_runner.item_execution_failed"],
            [.obj [("type", .str "error"), ("message", .str m)]]⟩ :: entries, ?_,
            by simp [hlen]⟩
          unfold run_items
          rw [hm, hent]

theorem C7_item_classification_witness :
    execute_workflow_item "wf-1" "item-1" C6_pu
        (.resp 200 "" (some (.obj [("booked", .bool true)])))
      = .ok ⟨200, "completed", "allow", [], [], some (.obj [("booked", .bool true)])⟩ ∧
    execute_workflow_item "wf-1" "item-1" C6_pu
        (.resp 502 "upstream down" none)
      = .ok ⟨502, "error", "deny", [.str "agent_runner.item_execution_failed"],
          [.obj [("type", .str "error"),
            ("message", .str "HTTP POST non-2xx: http=502 body=upstream down")]], none⟩ :=
  ⟨(C7_item_classification "wf-1" "item-1" C6_pu (fun _ => .netError "unused")
      (by decide) (by decide) (by decide)).1 200 "" (.obj [("booked", .bool true)])
      (by decide) (by decide),
   (C7_item_classification "wf-1" "item-1" C6_pu (fun _ => .netError "unused")
      (by decide) (by decide) (by decide)).2.2.1 502 "upstream down"
      (by omega) (by decide)⟩

/-- A transport failure on an item execution aborts the whole run (the
`RequestException` is not one of the caught classes), so the run over
one item ends with no item result and the endpoint answers HTTP 500 —
against the claim, no `error`/`deny` item record with
`agent_runner.item_execution_failed` is produced. -/
theorem C7_transport_error_counterexample :
    execute_workflow_run "run-1" "wf-1" C6_pu false (.ok [⟨"item-1", "hotel"⟩])
        (fun _ => .netError "connection refused")
      = .error (.fatal "connection refused") ∧
    handle_post_workflow_runs [("decision", .str "allow")] "wf-1" C6_pu false "run-1"
        (.ok [⟨"item-1", "hotel"⟩]) (fun _ => .netError "connection refused")
      = .error (500, "connection refused") :=
  ⟨rfl, rfl⟩

/-- Claim C8 (amended): a successful persona create round-trips through
`get_persona` with the documented normalization — `valid_from` defaults
to the creation instant, `valid_till` to 365 days later, `status` to
`active`, the scope to `[]` — for the fixed column set the store
persists; manifest-declared attributes outside the fixed
`consent`/`autobook_price`/`autobook_leadtime`/`autobook_risklevel`
columns are dropped by the store (see the counterexample), so the
round-trip equality holds of the stored projection, not of every
manifest attribute. -/
theorem C8_persona_roundtrip (titles statuses : List String) (cap : Nat) (schema : PersonaSchema)
    (store : List PersonaRow) (now : Nat) (user_sub title : String)
    (scope : Option (List String)) (valid_from valid_till : Option Nat) (status : Option String)
    (custom : List (String × JVal)) (persona : Persona) (store1 : List PersonaRow)
    (h : service_create_persona titles statuses cap schema store now user_sub title scope
        valid_from valid_till status custom = .ok (persona, store1)) :
    db_get_persona store1 persona.persona_id = some persona ∧
    persona.valid_from = valid_from.getD now ∧
    persona.valid_till = valid_till.getD (now + 365) ∧
    persona.status = status.getD "active" ∧
    persona.scope = scope.getD [] ∧
    persona.created_at = now ∧
    persona.updated_at = now := by
  unfold service_create_persona at h
  split at h
  · cases h
  · split at h
    · cases h
    · split at h
      · cases h
      · rcases happ : apply_defaults_and_coerce_attributes custom schema with ⟨pa, verr⟩
        rw [happ] at h
        cases verr with
        | some ve => cases h
        | none =>
            dsimp only at h
            cases hcv : jget pa "circle" with
            | none => rw [hcv] at h; cases h
            | some cv =>
                rw [hcv] at h
                dsimp only at h
                unfold db_create_persona at h
                dsimp only at h
                split at h
                · cases h
                · rename_i hdup
                  split at h
                  · cases h
                  · rename_i ci hci
                    split at h
                    · rename_i r hr
                      have hall : ∀ e ∈ store, (fun rr : PersonaRow =>
                          decide (rr.persona_id = user_sub ++ "_" ++ title ++ "_" ++ pyStr cv))
                            e = false := by
                        intro e he
                        by_contra hne
                        apply hdup
                        rw [List.any_eq_true]
                        exact ⟨e, he, by simpa using hne⟩
                      rw [find?_append_right _ _ _ hall] at hr
                      simp only [List.find?, decide_True, decide_eq_true_eq,
                        Option.some.injEq] at hr
                      cases h
                      subst hr
                      refine ⟨?_, rfl, rfl, rfl, rfl, rfl, rfl⟩
                      unfold db_get_persona
                      simp only [row_to_dict]
                      rw [find?_append_right _ _ _ hall]
                      simp [List.find?, row_to_dict]
                    · cases h

theorem C8_persona_roundtrip_witness :
    db_get_persona [C8_row] C8_persona.persona_id = some C8_persona ∧
    C8_persona.valid_from = (none : Option Nat).getD 1000 ∧
    C8_persona.valid_till = (none : Option Nat).getD (1000 + 365) ∧
    C8_persona.status = (none : Option String).getD "active" ∧
    C8_persona.scope = (none : Option (List String)).getD [] ∧
    C8_persona.created_at = 1000 ∧
    C8_persona.updated_at = 1000 :=
  C8_persona_roundtrip ["traveler"] ["active"] 10 C8_schema [] 1000 "u1" "traveler"
    none none none none C8_custom C8_persona [C8_row] rfl

/-- The manifest declares `seat_preference` (default `aisle`), the
caller supplies `window`, and attribute processing keeps it — yet the
persona the create returns (and any later get) carries no such key:
the store persists only its fixed columns, so "every manifest-declared
persona attribute present" fails on the round-trip. -/
theorem C8_dropped_attribute_counterexample :
    service_create_persona ["traveler"] ["active"] 10 C8_schema [] 1000 "u1" "traveler"
        none none none none C8_custom = .ok (C8_persona, [C8_row]) ∧
    jget (apply_defaults_and_coerce_attributes C8_custom C8_schema).1 "seat_preference"
      = some (.str "window") ∧
    jmem (persona_dict C8_persona) "seat_preference" = false :=
  ⟨rfl, rfl, rfl⟩

/-- Claim C9: a supplied delegator other than the principal passes
`create_delegation` only through the `validate_delegation` guard: with
no live path the call fails with no table change; with a path whose
delegated actions do not cover the requested scope (default
`{execute}`) it fails with no table change; and when the guard passes
the inserted edge's scope is bounded by the delegator's own delegated
actions (the call still ends in the unpack `ValueError` of C1, but the
committed edge grants nothing beyond the delegator's permissions). -/
theorem C9_subdelegation_guard (cfg : List String) (db : List Edge) (now : Nat)
    (p d delegator : String) (days : Int) (wf : Option String) (scope : Option (List String))
    (v : ValidationResult)
    (hp : require_non_empty_string p "principal_id" = .ok p)
    (hd : require_non_empty_string d "delegate_id" = .ok d)
    (hne : p ≠ d) (hdays : 0 < days)
    (hdel1 : delegator ≠ "") (hdel2 : delegator ≠ p)
    (hval : validate_delegation cfg db now p delegator wf = .ok v) :
    (v.valid = false →
      create_delegation cfg db now p d days wf scope (some delegator)
        = (.error "You cannot delegate permissions you don\x27t have", db)) ∧
    (v.valid = true → ¬ (requested_scope_set scope ⊆ v.delegated_actions) →
      create_delegation cfg db now p d days wf scope (some delegator)
        = (.error ("Cannot delegate " ++ action_set_repr (requested_scope_set scope)
            ++ ". You only have " ++ action_set_repr v.delegated_actions
            ++ " permissions."), db)) ∧
    (v.valid = true → requested_scope_set scope ⊆ v.delegated_actions →
      (∀ e ∈ db, edge_matches_triple p d wf e = false) →
      create_delegation cfg db now p d days wf scope (some delegator)
        = (.error "too many values to unpack (expected 2)",
           db ++ [⟨p, d, wf, scope.getD ["execute"], now + days.toNat, now, none⟩])
        ∧ (scope.getD ["execute"]).toFinset ⊆ v.delegated_actions) := by
  have hdays' : ¬ (days ≤ 0) := by omega
  refine ⟨fun hinvalid => ?_, fun hvalid hsub => ?_, fun hvalid hsub hfresh => ?_⟩
  · unfold create_delegation
    simp only [hp, hd, hval, hinvalid]
    rw [if_neg hne, if_neg hdays']
    simp [hdel1, hdel2]
  · unfold create_delegation
    simp only [hp, hd, hval, hvalid]
    rw [if_neg hne, if_neg hdays']
    simp [hdel1, hdel2, hsub]
  · constructor
    · have hrow : edge_matches_triple p d wf
          (⟨p, d, wf, scope.getD ["execute"], now + days.toNat, now, none⟩ : Edge) = true := by
        simp [edge_matches_triple]
      have hfind : db.find? (fun e => edge_matches_triple p d wf e
          && decide (e.revoked_at = none)) = none := by
        apply List.find?_eq_none.mpr
        intro x hx
        simp [hfresh x hx]
      have hany : db.any (edge_matches_triple p d wf) = false := by
        rw [List.any_eq_false]
        intro x hx
        simp [hfresh x hx]
      have hfind1 : (db ++ [(⟨p, d, wf, scope.getD ["execute"], now + days.toNat, now,
          none⟩ : Edge)]).find? (edge_matches_triple p d wf)
          = some ⟨p, d, wf, scope.getD ["execute"], now + days.toNat, now, none⟩ := by
        rw [find?_append_right _ _ _ (fun e he => hfresh e he)]
        simp [List.find?, hrow]
      unfold create_delegation
      simp only [hp, hd, hval, hvalid]
      rw [if_neg hne, if_neg hdays']
      rw [if_pos (show (decide (delegator ≠ "") && decide (delegator ≠ p)) = true
        by simp [hdel1, hdel2])]
      simp only [Bool.not_true]
      rw [if_neg (show ¬ (false = true) by simp)]
      rw [if_neg (not_not_intro hsub)]
      dsimp only
      unfold insert_edge
      simp only [hfind, hany, hfind1]
      simp [dict_unpack2, edge_to_dict]
    · match scope with
      | none => simpa [requested_scope_set] using hsub
      | some s =>
          by_cases hs : s = []
          · subst hs; simp
          · have : requested_scope_set (some s) = s.toFinset := by
              simp [requested_scope_set, hs]
            simpa [this] using hsub

theorem C9_subdelegation_guard_witness :
    create_delegation ["read", "execute", "update"] C9_db 10 "alice" "bob" 7 none
        (some ["read"]) (some "carol")
      = (.error "too many values to unpack (expected 2)",
         C9_db ++ [⟨"alice", "bob", none, ["read"], 17, 10, none⟩])
    ∧ (["read"] : List String).toFinset ⊆ ({"read", "execute"} : Finset String) :=
  (C9_subdelegation_guard ["read", "execute", "update"] C9_db 10 "alice" "bob" "carol" 7 none
      (some ["read"]) ⟨true, ["alice", "carol"], {"read", "execute"}⟩
      rfl rfl (by decide) (by decide) (by decide) (by decide) rfl).2.2
    rfl (by decide) (by decide)

/-- Claim C10: attribute normalization never rejects a present value.
In the Authorization Engine, `normalize_attributes` fails only through
the missing-required check — every error message lists required
attribute names of the schema — and in the Persona Registry,
`apply_defaults_and_coerce_attributes` fails only through
`validate_required_attributes`, likewise over required names.  The
coercions themselves are total: a malformed integer becomes `0`, a
malformed float `0.0` (persona path), a non-boolean `False`, and a
non-null value of string type its stringification. -/
theorem C10_coercion_never_rejects :
    (∀ (attrs : List (String × JVal)) (pas : List PolicyAttribute) (st e : String),
      normalize_attributes attrs pas st = .error e →
      ∃ missing : List String, missing ≠ [] ∧
        e = s!"Missing required {st} attributes: {comma_sep missing}" ∧
        ∀ n ∈ missing, ∃ pa ∈ pas, pa.name = n ∧ pa.required = true) ∧
    (∀ (attrs : List (String × JVal)) (schema : PersonaSchema)
        (out : List (String × JVal)) (err : String),
      apply_defaults_and_coerce_attributes attrs schema = (out, some err) →
      out = [] ∧ ∃ missing : List String, missing ≠ [] ∧
        err = "Missing required persona attributes: " ++ String.intercalate ", " missing ∧
        ∀ n ∈ missing, ∃ p ∈ schema, p.1 = n ∧ p.2.required = true) ∧
    coerce_attribute_value (.str "not a number") "integer" = .int 0 ∧
    coerce_attribute_value (.str "garbage") "float" = .num 0 ∧
    coerce_attribute_value (.int 7) "boolean" = .bool false ∧
    coerce_attribute_value (.int 7) "string" = .str "7" ∧
    coerce_int (.str "garbage") 0 = 0 ∧
    coerce_bool (.str "whatever") false = false := by
  refine ⟨?_, ?_, rfl, rfl, rfl, rfl, rfl, rfl⟩
  · intro attrs pas st e h
    unfold normalize_attributes at h
    dsimp only at h
    by_cases hm : ((pas.filter (fun attr =>
        attr.required && (!(jmem (pas.foldl (fun result attr =>
          if !(jmem result attr.name) || jget result attr.name = some .null then
            match attr.default with
            | some d => jset result attr.name d
            | none => result
          else result) attrs) attr.name)
          || jget (pas.foldl (fun result attr =>
          if !(jmem result attr.name) || jget result attr.name = some .null then
            match attr.default with
            | some d => jset result attr.name d
            | none => result
          else result) attrs) attr.name = some .null))).map (fun a => a.name)) ≠ []
    · rw [if_pos hm] at h
      refine ⟨_, hm, by injection h with h1; simp only [comma_sep]; rw [← h1], ?_⟩
      intro n hn
      obtain ⟨pa, hpa, rfl⟩ := List.mem_map.mp hn
      obtain ⟨hmem, hflt⟩ := List.mem_filter.mp hpa
      rw [Bool.and_eq_true] at hflt
      exact ⟨pa, hmem, rfl, hflt.1⟩
    · rw [if_neg hm] at h
      cases h
  · intro attrs schema out err h
    unfold apply_defaults_and_coerce_attributes at h
    dsimp only at h
    cases hv : validate_required_attributes (apply_attribute_defaults attrs schema) schema with
    | none => rw [hv] at h; cases h
    | some ve =>
        rw [hv] at h
        injection h with h1 h2
        injection h2 with h2
        refine ⟨h1.symm, ?_⟩
        unfold validate_required_attributes at hv
        dsimp only at hv
        by_cases hm : ((schema.filter (fun entry =>
            entry.2.required && (!(jmem (apply_attribute_defaults attrs schema) entry.1)
              || jget (apply_attribute_defaults attrs schema) entry.1 = some .null))).map
            Prod.fst) ≠ []
        · rw [if_pos hm] at hv
          injection hv with hv
          refine ⟨_, hm, by rw [← h2, ← hv], ?_⟩
          intro n hn
          obtain ⟨pa, hpa, rfl⟩ := List.mem_map.mp hn
          obtain ⟨hmem, hflt⟩ := List.mem_filter.mp hpa
          rw [Bool.and_eq_true] at hflt
          exact ⟨pa, hmem, rfl, hflt.1⟩
        · rw [if_neg hm] at hv
          cases hv

theorem C10_coercion_never_rejects_witness :
    ∃ missing : List String, missing ≠ [] ∧
      "Missing required resource attributes: departure_date"
        = s!"Missing required resource attributes: {comma_sep missing}" ∧
      ∀ n ∈ missing, ∃ pa ∈ travel_manifest.resource_attributes,
        pa.name = n ∧ pa.required = true :=
  C10_coercion_never_rejects.1 [] travel_manifest.resource_attributes "resource"
    "Missing required resource attributes: departure_date" rfl

end FlowPilot
